import Mathlib

/-!
# Verification of the Imposer imposition pipeline

Shallow embedding of the Python backend of the Imposer repository
(`src/backend/`), with lengths in millimetres modelled as rationals,
Python `int` modelled as `ℤ` (or `ℕ` where the source value is a count),
and the pipeline's data model mirrored structure by structure from
`models.py`.  Each embedded definition names the source function it
translates.
-/

namespace Imposer

/-- `models.Rectangle`: origin bottom-left, y grows upward, lengths in mm. -/
structure Rectangle where
  x : ℚ
  y : ℚ
  width : ℚ
  height : ℚ
deriving DecidableEq, Repr

/-- `Rectangle.left_edge` property. -/
def Rectangle.left_edge (r : Rectangle) : ℚ := r.x

/-- `Rectangle.right_edge` property. -/
def Rectangle.right_edge (r : Rectangle) : ℚ := r.x + r.width

/-- `Rectangle.bottom_edge` property. -/
def Rectangle.bottom_edge (r : Rectangle) : ℚ := r.y

/-- `Rectangle.top_edge` property. -/
def Rectangle.top_edge (r : Rectangle) : ℚ := r.y + r.height

/-- `models.DetectedBleed`. -/
structure DetectedBleed where
  top : ℚ
  bottom : ℚ
  left : ℚ
  right : ℚ
deriving DecidableEq, Repr

/-- `models.BleedConfig` (the `uniform` hint is UI-only and not modelled). -/
structure BleedConfig where
  top : ℚ
  bottom : ℚ
  left : ℚ
  right : ℚ
deriving DecidableEq, Repr

/-- The four edge descriptors the source passes around as strings
`"top" / "bottom" / "left" / "right"`. -/
inductive Edge where
  | top
  | bottom
  | left
  | right
deriving DecidableEq, Repr

/-- `models.SheetConfig.orientation` values. -/
inductive Orientation where
  | landscape
  | portrait
deriving DecidableEq, Repr

/-- `models.SheetConfig`. -/
structure SheetConfig where
  sheet_width : ℚ
  sheet_height : ℚ
  orientation : Orientation
  grip_edge : ℚ
  mark_margin : ℚ
deriving DecidableEq, Repr

/-- `models.ImpositionMode`. -/
inductive ImpositionMode where
  | step_and_repeat
  | booklet_saddle_stitch
  | booklet_perfect_bind
  | cut_and_stack
deriving DecidableEq, Repr

/-- `models.FlipEdge`. -/
inductive FlipEdge where
  | long
  | short
deriving DecidableEq, Repr

/-- `models.MarkConfig` is irrelevant to the claims below and not modelled;
`models.ImpositionConfig` keeps the fields the imposition pipeline reads. -/
structure ImpositionConfig where
  mode : ImpositionMode
  trim_width : ℚ
  trim_height : ℚ
  bleed : BleedConfig
  sheet : SheetConfig
  gap_between_items : ℚ
  duplex : Bool
  flip_edge : FlipEdge
  auto_rotate : Bool
deriving DecidableEq, Repr

/-- `models.EdgeFlags`. -/
structure EdgeFlags where
  top : Bool
  bottom : Bool
  left : Bool
  right : Bool
deriving DecidableEq, Repr

/-- `models.EdgeBleed`. -/
structure EdgeBleed where
  top : ℚ
  bottom : ℚ
  left : ℚ
  right : ℚ
deriving DecidableEq, Repr

/-- `models.GridCell`.  `row`/`col` are Python ints (they can go negative in
intermediate arithmetic, e.g. neighbour lookup at `row - 1`), hence `ℤ`.
`page_index` is an optional 0-based page number. -/
structure GridCell where
  row : ℤ
  col : ℤ
  page_index : Option ℕ
  rotation : ℤ
  clip_rect : Option Rectangle
  bleed_per_edge : EdgeBleed
  is_interior_edge : EdgeFlags
  trim_origin_x : ℚ
  trim_origin_y : ℚ
deriving DecidableEq, Repr

/-- `GridCell(row=…, col=…, page_index=…, rotation=…)` with the pydantic
defaults for the remaining fields. -/
def mkCell (r c : ℤ) (p : Option ℕ) (rot : ℤ) : GridCell :=
  { row := r, col := c, page_index := p, rotation := rot,
    clip_rect := none,
    bleed_per_edge := ⟨0, 0, 0, 0⟩,
    is_interior_edge := ⟨false, false, false, false⟩,
    trim_origin_x := 0, trim_origin_y := 0 }

/-- `models.ImpositionLayout`. -/
structure ImpositionLayout where
  rows : ℤ
  cols : ℤ
  n_up : ℤ
  total_sheets : ℕ
  cell_rotation : ℤ
  grid : List GridCell
deriving DecidableEq, Repr

/-- Python `int(q)` on a float: truncation toward zero. -/
def pyInt (q : ℚ) : ℤ := if 0 ≤ q then ⌊q⌋ else ⌈q⌉

/-- Python `math.ceil(a / b)` for non-negative integers `a` and positive `b`. -/
def ceilDiv (a b : ℕ) : ℕ := (a + b - 1) / b

/-- The sheet-orientation swap performed identically at the top of
`imposition_engine.calculate_imposition_layout`,
`bleed_manager.calculate_cell_positions` and
`pdf_output.generate_imposed_pdf`: landscape forces `w ≥ h`,
portrait forces `w ≤ h`.  Returns `(sheet_w, sheet_h)`. -/
def orientedSheet (s : SheetConfig) : ℚ × ℚ :=
  if s.orientation = Orientation.landscape ∧ s.sheet_width < s.sheet_height then
    (s.sheet_height, s.sheet_width)
  else if s.orientation = Orientation.portrait ∧ s.sheet_width > s.sheet_height then
    (s.sheet_height, s.sheet_width)
  else
    (s.sheet_width, s.sheet_height)

/-- The `while cols > 0 and (outer + cols*trim) > available: cols -= 1` loop of
`imposition_engine._calc_grid_count`, as structural recursion on the counter. -/
def shrinkFit (outer avail trim : ℚ) : ℕ → ℕ
  | 0 => 0
  | n + 1 => if outer + (n + 1 : ℚ) * trim > avail then shrinkFit outer avail trim n else n + 1

/-- `imposition_engine._calc_grid_count`: how many `cols × rows` fit.
Returns `(cols, rows)`, each clamped below at 0 by the final `max`. -/
def calcGridCount (sheet_w sheet_h mark_margin grip trim_w trim_h : ℚ)
    (bleed : BleedConfig) (gap : ℚ) : ℤ × ℤ :=
  let available_w := sheet_w - 2 * mark_margin
  let available_h := sheet_h - 2 * mark_margin - grip
  if available_w ≤ 0 ∨ available_h ≤ 0 then (0, 0)
  else if gap = 0 then
    let outer_w := bleed.left + bleed.right
    let outer_h := bleed.top + bleed.bottom
    let cols0 : ℤ := if trim_w > 0 then max 1 (pyInt ((available_w - outer_w) / trim_w)) else 0
    let cols : ℤ := (shrinkFit outer_w available_w trim_w cols0.toNat : ℤ)
    let rows0 : ℤ := if trim_h > 0 then max 1 (pyInt ((available_h - outer_h) / trim_h)) else 0
    let rows : ℤ := (shrinkFit outer_h available_h trim_h rows0.toNat : ℤ)
    (max cols 0, max rows 0)
  else
    let cell_w := trim_w + bleed.left + bleed.right + gap
    let cell_h := trim_h + bleed.top + bleed.bottom + gap
    let cols : ℤ := if cell_w > 0 then pyInt (available_w / cell_w) else 0
    let rows : ℤ := if cell_h > 0 then pyInt (available_h / cell_h) else 0
    (max cols 0, max rows 0)

/-- The unrotated `_calc_grid_count` call of `calculate_imposition_layout`. -/
def normalCounts (config : ImpositionConfig) : ℤ × ℤ :=
  calcGridCount (orientedSheet config.sheet).1 (orientedSheet config.sheet).2
    config.sheet.mark_margin config.sheet.grip_edge
    config.trim_width config.trim_height config.bleed config.gap_between_items

/-- The rotated `_calc_grid_count` call (trim dimensions swapped). -/
def rotatedCounts (config : ImpositionConfig) : ℤ × ℤ :=
  calcGridCount (orientedSheet config.sheet).1 (orientedSheet config.sheet).2
    config.sheet.mark_margin config.sheet.grip_edge
    config.trim_height config.trim_width config.bleed config.gap_between_items

/-- Orientation selection of `calculate_imposition_layout`: the rotated grid is
taken only when `auto_rotate` holds and its n-up is strictly larger.
Returns `(best_cols, best_rows, rotation)`. -/
def plannerBest (config : ImpositionConfig) : ℤ × ℤ × ℤ :=
  if config.auto_rotate = true ∧
      (rotatedCounts config).1 * (rotatedCounts config).2 >
        (normalCounts config).1 * (normalCounts config).2 then
    ((rotatedCounts config).1, (rotatedCounts config).2, 90)
  else
    ((normalCounts config).1, (normalCounts config).2, 0)

/-- The `if best_cols < 1: best_cols = 1` clamp of `calculate_imposition_layout`. -/
def clamp1 (z : ℤ) : ℤ := if z < 1 then 1 else z

/-- The row-major cursor fill of `imposition_engine._build_grid` for the
`cut_and_stack` and `booklet_perfect_bind` branches: consecutive source
indices from `cursor0`, `None` once `page_count` is exhausted.  The Python
loop threads the mutable `cursor` through the fold accumulator. -/
def fillSequential (rows cols : ℤ) (cursor0 page_count : ℕ) (rotation : ℤ) :
    List GridCell :=
  ((((List.range rows.toNat).flatMap
      (fun r => (List.range cols.toNat).map (fun c => ((r : ℤ), (c : ℤ))))).foldl
    (fun (acc : List GridCell × ℕ) rc =>
      if acc.2 < page_count then
        (acc.1 ++ [mkCell rc.1 rc.2 (some acc.2) rotation], acc.2 + 1)
      else
        (acc.1 ++ [mkCell rc.1 rc.2 none rotation], acc.2))
    ([], cursor0))).1

/-- The internal `sheets` list of
`imposition_engine._build_saddle_stitch_grid` (lines 200-217): raw page
pairings per signature, before the `≥ page_count → None` masking.
`total = 4 * ceil(page_count / 4)`; signature `i` has
`front = [total - 2i - 1, 2i]` and `back = [2i + 1, total - 2i - 2]`. -/
def saddleRawSheets (page_count : ℕ) : List (List ℕ × List ℕ) :=
  let total := ceilDiv page_count 4 * 4
  (List.range (total / 4)).map (fun i =>
    ([total - 2 * i - 1, 2 * i], [2 * i + 1, total - 2 * i - 2]))

/-- `imposition_engine._build_saddle_stitch_grid`: front grid of the
requested signature (clamped), placed row-major with `col = i % cols`,
`row = i // cols`, pages `≥ page_count` becoming `None`. -/
def buildSaddleStitchGrid (_rows cols : ℤ) (page_count : ℕ) (rotation : ℤ)
    (sheet_number : ℕ) : List GridCell :=
  let sheets := saddleRawSheets page_count
  if sheets = [] then []
  else
    let idx := min sheet_number (sheets.length - 1)
    let front_pages := (sheets.getD idx ([], [])).1
    front_pages.enum.map (fun ip =>
      mkCell ((ip.1 : ℤ) / cols) ((ip.1 : ℤ) % cols)
        (if ip.2 < page_count then some ip.2 else none) rotation)

/-- `imposition_engine._build_grid`. -/
def buildGrid (mode : ImpositionMode) (rows cols : ℤ) (page_count : ℕ)
    (rotation : ℤ) (sheet_number : ℕ) (n_up : ℤ) : List GridCell :=
  match mode with
  | ImpositionMode.step_and_repeat =>
      (List.range rows.toNat).flatMap
        (fun (r : ℕ) => (List.range cols.toNat).map
          (fun (c : ℕ) => mkCell (r : ℤ) (c : ℤ) (some 0) rotation))
  | ImpositionMode.cut_and_stack =>
      fillSequential rows cols (sheet_number * n_up.toNat) page_count rotation
  | ImpositionMode.booklet_saddle_stitch =>
      buildSaddleStitchGrid rows cols page_count rotation sheet_number
  | ImpositionMode.booklet_perfect_bind =>
      fillSequential rows cols (sheet_number * n_up.toNat) page_count rotation

/-- `imposition_engine.calculate_imposition_layout`. -/
def calculate_imposition_layout (config : ImpositionConfig) (page_count : ℕ)
    (sheet_number : ℕ := 0) : ImpositionLayout :=
  let b := plannerBest config
  let best_cols := clamp1 b.1
  let best_rows := clamp1 b.2.1
  let rotation := b.2.2
  let n_up := best_cols * best_rows
  let pages_per_sheet : ℤ := if config.duplex = true then n_up * 2 else n_up
  let total_sheets : ℕ :=
    if config.mode = ImpositionMode.step_and_repeat then
      if config.duplex = true then max 1 (ceilDiv page_count 2) else max 1 page_count
    else
      max 1 (ceilDiv page_count pages_per_sheet.toNat)
  let sheet := min sheet_number (total_sheets - 1)
  { rows := best_rows, cols := best_cols, n_up := n_up,
    total_sheets := total_sheets, cell_rotation := rotation,
    grid := buildGrid config.mode best_rows best_cols page_count rotation sheet n_up }

/-- `imposition_engine.get_saddle_stitch_sheets`: all saddle-stitch
pairings with slots `≥ page_count` already masked to `None`. -/
def get_saddle_stitch_sheets (page_count : ℕ) :
    List (List (Option ℕ) × List (Option ℕ)) :=
  let total := ceilDiv page_count 4 * 4
  (List.range (total / 4)).map (fun i =>
    let front_left := total - 2 * i - 1
    let front_right := 2 * i
    let back_left := 2 * i + 1
    let back_right := total - 2 * i - 2
    ([if front_left < page_count then some front_left else none,
      if front_right < page_count then some front_right else none],
     [if back_left < page_count then some back_left else none,
      if back_right < page_count then some back_right else none]))

/-- `bleed_manager._get_neighbor`: the first grid cell at the target
coordinates, `None` when the target is outside `[0, rows) × [0, cols)`.
`edge = top` increments `row` (rows grow upward). -/
def getNeighbor (grid : List GridCell) (cell : GridCell) (edge : Edge)
    (total_rows total_cols : ℤ) : Option GridCell :=
  let target_row : ℤ :=
    match edge with
    | Edge.top => cell.row + 1
    | Edge.bottom => cell.row - 1
    | _ => cell.row
  let target_col : ℤ :=
    match edge with
    | Edge.left => cell.col - 1
    | Edge.right => cell.col + 1
    | _ => cell.col
  if target_row < 0 ∨ target_row ≥ total_rows then none
  else if target_col < 0 ∨ target_col ≥ total_cols then none
  else grid.find? (fun c => c.row = target_row ∧ c.col = target_col)

/-- `bleed_manager._get_bleed_for_edge`. -/
def getBleedForEdge (bleed_config : BleedConfig) (edge : Edge) : ℚ :=
  match edge with
  | Edge.top => bleed_config.top
  | Edge.bottom => bleed_config.bottom
  | Edge.left => bleed_config.left
  | Edge.right => bleed_config.right

/-- The bleed value the edge loop of `bleed_manager.calculate_per_cell_bleed`
assigns to edge `e` of `cell` (each loop iteration writes exactly the field
of its own edge): full configured bleed when `gap > 0`, when the neighbour
is out of grid, or when the neighbour is blank; `0.0` otherwise. -/
def edgeBleedValue (grid : List GridCell) (cell : GridCell) (e : Edge)
    (rows cols : ℤ) (bleed_config : BleedConfig) (gap : ℚ) : ℚ :=
  if gap > 0 then getBleedForEdge bleed_config e
  else
    match getNeighbor grid cell e rows cols with
    | none => getBleedForEdge bleed_config e
    | some nb => if nb.page_index = none then getBleedForEdge bleed_config e else 0

/-- The `is_interior_edge` flag the same loop assigns to edge `e`. -/
def edgeInteriorValue (grid : List GridCell) (cell : GridCell) (e : Edge)
    (rows cols : ℤ) (gap : ℚ) : Bool :=
  if gap > 0 then false
  else
    match getNeighbor grid cell e rows cols with
    | none => false
    | some nb => if nb.page_index = none then false else true

/-- The body of the cell loop of `bleed_manager.calculate_per_cell_bleed`:
cells with `page_index = None` are skipped (`continue`); otherwise the four
edges are classified and both per-edge records replaced. -/
def cellBleedUpdate (grid : List GridCell) (rows cols : ℤ)
    (bleed_config : BleedConfig) (gap : ℚ) (cell : GridCell) : GridCell :=
  if cell.page_index = none then cell
  else
    { cell with
      bleed_per_edge :=
        ⟨edgeBleedValue grid cell Edge.top rows cols bleed_config gap,
         edgeBleedValue grid cell Edge.bottom rows cols bleed_config gap,
         edgeBleedValue grid cell Edge.left rows cols bleed_config gap,
         edgeBleedValue grid cell Edge.right rows cols bleed_config gap⟩,
      is_interior_edge :=
        ⟨edgeInteriorValue grid cell Edge.top rows cols gap,
         edgeInteriorValue grid cell Edge.bottom rows cols gap,
         edgeInteriorValue grid cell Edge.left rows cols gap,
         edgeInteriorValue grid cell Edge.right rows cols gap⟩ }

/-- `bleed_manager.calculate_per_cell_bleed`.  The Python loop mutates only
`bleed_per_edge` / `is_interior_edge`, fields the neighbour lookup never
reads, so the in-place pass equals a map over the original grid. -/
def calculate_per_cell_bleed (grid : List GridCell) (layout : ImpositionLayout)
    (bleed_config : BleedConfig) (gap : ℚ) : List GridCell :=
  grid.map (cellBleedUpdate grid layout.rows layout.cols bleed_config gap)

/-- Grid extent (trim area plus outer bleed) of
`bleed_manager.calculate_cell_positions`: tight mode shares interior trim
edges, gap mode gives every cell full bleed plus gap with no trailing gap. -/
def gridExtentW (cols : ℤ) (bleed_config : BleedConfig) (gap trim_w : ℚ) : ℚ :=
  if gap = 0 then (cols : ℚ) * trim_w + bleed_config.left + bleed_config.right
  else (cols : ℚ) * (trim_w + bleed_config.left + bleed_config.right + gap) - gap

/-- Vertical counterpart of `gridExtentW`. -/
def gridExtentH (rows : ℤ) (bleed_config : BleedConfig) (gap trim_h : ℚ) : ℚ :=
  if gap = 0 then (rows : ℚ) * trim_h + bleed_config.top + bleed_config.bottom
  else (rows : ℚ) * (trim_h + bleed_config.top + bleed_config.bottom + gap) - gap

/-- Horizontal centring offset of `calculate_cell_positions`:
`(sheet_w − grid_w)/2 + bleed.left`. -/
def offsetX (layout : ImpositionLayout) (sheet_config : SheetConfig)
    (bleed_config : BleedConfig) (gap trim_w : ℚ) : ℚ :=
  ((orientedSheet sheet_config).1 - gridExtentW layout.cols bleed_config gap trim_w) / 2
    + bleed_config.left

/-- Vertical centring offset: `(sheet_h − grid_h)/2 + bleed.bottom`. -/
def offsetY (layout : ImpositionLayout) (sheet_config : SheetConfig)
    (bleed_config : BleedConfig) (gap trim_h : ℚ) : ℚ :=
  ((orientedSheet sheet_config).2 - gridExtentH layout.rows bleed_config gap trim_h) / 2
    + bleed_config.bottom

/-- Body of the cell loop of `calculate_cell_positions`: trim origin at
`offset + (col·pitch, row·pitch)`, clip rectangle of trim plus per-edge bleed. -/
def posCell (layout : ImpositionLayout) (sheet_config : SheetConfig)
    (bleed_config : BleedConfig) (gap trim_w trim_h : ℚ) (cell : GridCell) : GridCell :=
  let tx := if gap = 0 then
      offsetX layout sheet_config bleed_config gap trim_w + (cell.col : ℚ) * trim_w
    else
      offsetX layout sheet_config bleed_config gap trim_w
        + (cell.col : ℚ) * (trim_w + bleed_config.left + bleed_config.right + gap)
  let ty := if gap = 0 then
      offsetY layout sheet_config bleed_config gap trim_h + (cell.row : ℚ) * trim_h
    else
      offsetY layout sheet_config bleed_config gap trim_h
        + (cell.row : ℚ) * (trim_h + bleed_config.top + bleed_config.bottom + gap)
  { cell with
    trim_origin_x := tx,
    trim_origin_y := ty,
    clip_rect := some
      { x := tx - cell.bleed_per_edge.left,
        y := ty - cell.bleed_per_edge.bottom,
        width := trim_w + cell.bleed_per_edge.left + cell.bleed_per_edge.right,
        height := trim_h + cell.bleed_per_edge.top + cell.bleed_per_edge.bottom } }

/-- `bleed_manager.calculate_cell_positions`: centre the grid extent on the
(oriented) sheet and assign each cell its trim origin and clip rectangle.
`trim_w` / `trim_h` are the effective trim dimensions the caller passes in
(already swapped when `cell_rotation = 90`). -/
def calculate_cell_positions (grid : List GridCell) (layout : ImpositionLayout)
    (sheet_config : SheetConfig) (bleed_config : BleedConfig)
    (gap trim_w trim_h : ℚ) : List GridCell :=
  grid.map (posCell layout sheet_config bleed_config gap trim_w trim_h)

/-- The mirroring step of `duplex_handler.create_duplex_back`: long-edge flip
reverses columns; short-edge flip reverses rows and rotates by 180°. -/
def mirrorCell (flip : FlipEdge) (rows cols : ℤ) (cell : GridCell) : GridCell :=
  match flip with
  | FlipEdge.long => { cell with col := (cols - 1) - cell.col }
  | FlipEdge.short =>
      { cell with row := (rows - 1) - cell.row,
                  rotation := (cell.rotation + 180) % 360 }

/-- `duplex_handler.create_duplex_back`: deep-copy, mirror per flip edge,
then recompute bleed and positions on the mirrored grid. -/
def create_duplex_back (front_grid : List GridCell) (layout : ImpositionLayout)
    (config : ImpositionConfig) (trim_w trim_h : ℚ) : List GridCell :=
  let back_grid := front_grid.map (mirrorCell config.flip_edge layout.rows layout.cols)
  let back_grid := calculate_per_cell_bleed back_grid layout config.bleed config.gap_between_items
  calculate_cell_positions back_grid layout config.sheet config.bleed
    config.gap_between_items trim_w trim_h

/-- Back-grid construction of one signature in
`pdf_output._build_saddle_stitch` (lines 297-314): the back pages are placed
row-major like the front, then every cell's column is reversed
(`col = cols - 1 - col`) unconditionally — `config.flip_edge` is never
consulted and no 180° rotation is added — and bleed and positions are
recomputed. -/
def saddleBackGrid (config : ImpositionConfig) (layout : ImpositionLayout)
    (back_pages : List (Option ℕ)) (trim_w trim_h : ℚ) : List GridCell :=
  let back_grid := back_pages.enum.map (fun ip =>
    mkCell ((ip.1 : ℤ) / layout.cols) ((ip.1 : ℤ) % layout.cols) ip.2 layout.cell_rotation)
  let back_grid := back_grid.map (fun cell => { cell with col := (layout.cols - 1) - cell.col })
  let back_grid := calculate_per_cell_bleed back_grid layout config.bleed config.gap_between_items
  calculate_cell_positions back_grid layout config.sheet config.bleed
    config.gap_between_items trim_w trim_h

/-- Bleed derivation of `pdf_analyzer.analyze_pdf` (lines 40-69) for one
page, in mm.  Returns `(detected_bleed, trim rect actually used, whether the
"No TrimBox found" warning is recorded for this page)`. -/
def deriveDetectedBleed (media_rect : Rectangle)
    (trim_rect bleed_rect : Option Rectangle) :
    DetectedBleed × Rectangle × Bool :=
  match trim_rect, bleed_rect with
  | some t, some b =>
      (⟨max 0 (b.top_edge - t.top_edge),
        max 0 (t.bottom_edge - b.bottom_edge),
        max 0 (t.left_edge - b.left_edge),
        max 0 (b.right_edge - t.right_edge)⟩, t, false)
  | some t, none =>
      let raw_top := max 0 (media_rect.top_edge - t.top_edge)
      let raw_bottom := max 0 (t.bottom_edge - media_rect.bottom_edge)
      let raw_left := max 0 (t.left_edge - media_rect.left_edge)
      let raw_right := max 0 (media_rect.right_edge - t.right_edge)
      (⟨if raw_top ≤ 10 then raw_top else 0,
        if raw_bottom ≤ 10 then raw_bottom else 0,
        if raw_left ≤ 10 then raw_left else 0,
        if raw_right ≤ 10 then raw_right else 0⟩, t, false)
  | none, _ =>
      (⟨0, 0, 0, 0⟩, media_rect, true)

/-- The fatal errors of the validation prefix of
`pdf_output.generate_imposed_pdf`. -/
inductive ImposeError where
  | TrimExceedsSheet
  | ZeroNUp
deriving DecidableEq, Repr

/-- Validation and layout steps of `pdf_output.generate_imposed_pdf`
(lines 49-70), for configs whose `trim_width`/`trim_height` are non-zero so
the analyzer fallback is not taken: fail with `TrimExceedsSheet` when
`trim + bleed` exceeds the oriented sheet in either axis, then compute the
layout and fail with `ZeroNUp` when `layout.n_up == 0`. -/
def validateAndLayout (config : ImpositionConfig) (page_count : ℕ) :
    Except ImposeError ImpositionLayout :=
  let sheet_w := (orientedSheet config.sheet).1
  let sheet_h := (orientedSheet config.sheet).2
  if config.trim_width + config.bleed.left + config.bleed.right > sheet_w then
    Except.error ImposeError.TrimExceedsSheet
  else if config.trim_height + config.bleed.top + config.bleed.bottom > sheet_h then
    Except.error ImposeError.TrimExceedsSheet
  else if (calculate_imposition_layout config page_count).n_up = 0 then
    Except.error ImposeError.ZeroNUp
  else
    Except.ok (calculate_imposition_layout config page_count)

/-! ## Helper lemmas -/

@[simp]
theorem posCell_row (l : ImpositionLayout) (sc : SheetConfig) (bc : BleedConfig)
    (gap tw th : ℚ) (c : GridCell) : (posCell l sc bc gap tw th c).row = c.row := rfl

@[simp]
theorem posCell_col (l : ImpositionLayout) (sc : SheetConfig) (bc : BleedConfig)
    (gap tw th : ℚ) (c : GridCell) : (posCell l sc bc gap tw th c).col = c.col := rfl

@[simp]
theorem posCell_page (l : ImpositionLayout) (sc : SheetConfig) (bc : BleedConfig)
    (gap tw th : ℚ) (c : GridCell) :
    (posCell l sc bc gap tw th c).page_index = c.page_index := rfl

@[simp]
theorem posCell_rot (l : ImpositionLayout) (sc : SheetConfig) (bc : BleedConfig)
    (gap tw th : ℚ) (c : GridCell) : (posCell l sc bc gap tw th c).rotation = c.rotation := rfl

@[simp]
theorem posCell_bleed (l : ImpositionLayout) (sc : SheetConfig) (bc : BleedConfig)
    (gap tw th : ℚ) (c : GridCell) :
    (posCell l sc bc gap tw th c).bleed_per_edge = c.bleed_per_edge := rfl

@[simp]
theorem cellBleedUpdate_row (g : List GridCell) (r c : ℤ) (bc : BleedConfig)
    (gap : ℚ) (cell : GridCell) : (cellBleedUpdate g r c bc gap cell).row = cell.row := by
  unfold cellBleedUpdate; split <;> rfl

@[simp]
theorem cellBleedUpdate_col (g : List GridCell) (r c : ℤ) (bc : BleedConfig)
    (gap : ℚ) (cell : GridCell) : (cellBleedUpdate g r c bc gap cell).col = cell.col := by
  unfold cellBleedUpdate; split <;> rfl

@[simp]
theorem cellBleedUpdate_page (g : List GridCell) (r c : ℤ) (bc : BleedConfig)
    (gap : ℚ) (cell : GridCell) :
    (cellBleedUpdate g r c bc gap cell).page_index = cell.page_index := by
  unfold cellBleedUpdate; split <;> rfl

@[simp]
theorem cellBleedUpdate_rot (g : List GridCell) (r c : ℤ) (bc : BleedConfig)
    (gap : ℚ) (cell : GridCell) :
    (cellBleedUpdate g r c bc gap cell).rotation = cell.rotation := by
  unfold cellBleedUpdate; split <;> rfl

/-! ## C9 — analyzer bleed derivation -/

/-- C9: `analyze_pdf` derives `detected_bleed` per page as follows.  With both
TrimBox and BleedBox, each edge is `max(0, bleed_box.edge − trim_box.edge)`
oriented outward.  With TrimBox alone, each edge is the MediaBox-to-TrimBox
difference, kept when `≤ 10` mm and reset to `0` when larger.  With no
TrimBox, bleed is zero on all edges, the MediaBox becomes the trim box, and
the "No TrimBox found" warning is recorded. -/
theorem detected_bleed_spec (media t b : Rectangle) :
    (deriveDetectedBleed media (some t) (some b) =
      (⟨max 0 (b.top_edge - t.top_edge),
        max 0 (t.bottom_edge - b.bottom_edge),
        max 0 (t.left_edge - b.left_edge),
        max 0 (b.right_edge - t.right_edge)⟩, t, false)) ∧
    (deriveDetectedBleed media (some t) none =
      (⟨if max 0 (media.top_edge - t.top_edge) ≤ 10 then max 0 (media.top_edge - t.top_edge) else 0,
        if max 0 (t.bottom_edge - media.bottom_edge) ≤ 10 then max 0 (t.bottom_edge - media.bottom_edge) else 0,
        if max 0 (t.left_edge - media.left_edge) ≤ 10 then max 0 (t.left_edge - media.left_edge) else 0,
        if max 0 (media.right_edge - t.right_edge) ≤ 10 then max 0 (media.right_edge - t.right_edge) else 0⟩,
       t, false)) ∧
    (∀ ob : Option Rectangle,
      deriveDetectedBleed media none ob = (⟨0, 0, 0, 0⟩, media, true)) := by
  refine ⟨rfl, rfl, fun ob => ?_⟩
  cases ob <;> rfl

/-! ## C4 — clip rectangle invariant -/

/-- C4: after `calculate_cell_positions`, every cell's `clip_rect` equals
`(trim_origin_x − bleed.left, trim_origin_y − bleed.bottom,
trim_w + bleed.left + bleed.right, trim_h + bleed.top + bleed.bottom)`,
where `bleed` is the cell's per-edge bleed and `trim_w`/`trim_h` are the
effective trim dimensions. -/
theorem clip_rect_spec (grid : List GridCell) (layout : ImpositionLayout)
    (sc : SheetConfig) (bc : BleedConfig) (gap tw th : ℚ) (i : ℕ) (c : GridCell)
    (h : (calculate_cell_positions grid layout sc bc gap tw th)[i]? = some c) :
    c.clip_rect = some
      { x := c.trim_origin_x - c.bleed_per_edge.left,
        y := c.trim_origin_y - c.bleed_per_edge.bottom,
        width := tw + c.bleed_per_edge.left + c.bleed_per_edge.right,
        height := th + c.bleed_per_edge.top + c.bleed_per_edge.bottom } := by
  rw [calculate_cell_positions, List.getElem?_map] at h
  obtain ⟨cell, _, hc⟩ := Option.map_eq_some'.mp h
  subst hc
  rfl

def gridW4 : List GridCell := [mkCell 0 0 (some 0) 0]

def layoutW4 : ImpositionLayout := ⟨1, 1, 1, 1, 0, []⟩

def sheetW4 : SheetConfig := ⟨100, 100, Orientation.landscape, 0, 0⟩

def bleedW4 : BleedConfig := ⟨1, 2, 3, 4⟩

def cellW4 : GridCell :=
  { row := 0, col := 0, page_index := some 0, rotation := 0,
    clip_rect := some { x := 89/2, y := 81/2, width := 10, height := 20 },
    bleed_per_edge := ⟨0, 0, 0, 0⟩,
    is_interior_edge := ⟨false, false, false, false⟩,
    trim_origin_x := 89/2, trim_origin_y := 81/2 }

/-- Witness for C4 at a concrete 1×1 grid. -/
theorem clip_rect_spec_witness :
    (calculate_cell_positions gridW4 layoutW4 sheetW4 bleedW4 0 10 20)[0]? = some cellW4 ∧
    cellW4.clip_rect = some
      { x := cellW4.trim_origin_x - cellW4.bleed_per_edge.left,
        y := cellW4.trim_origin_y - cellW4.bleed_per_edge.bottom,
        width := 10 + cellW4.bleed_per_edge.left + cellW4.bleed_per_edge.right,
        height := 20 + cellW4.bleed_per_edge.top + cellW4.bleed_per_edge.bottom } := by
  have h : (calculate_cell_positions gridW4 layoutW4 sheetW4 bleedW4 0 10 20)[0]? = some cellW4 := by
    simp only [calculate_cell_positions, gridW4, List.map_cons, List.map_nil]
    norm_num [posCell, offsetX, offsetY, gridExtentW, gridExtentH, orientedSheet,
      mkCell, layoutW4, sheetW4, bleedW4, cellW4]
  exact ⟨h, clip_rect_spec gridW4 layoutW4 sheetW4 bleedW4 0 10 20 0 cellW4 h⟩

/-! ## C2 — duplex mirror law -/

/-- C2: `create_duplex_back` maps the front cell at `(r, c)` to
`(r, cols − 1 − c)` with identical rotation for `flip_edge = long`, and to
`(rows − 1 − r, c)` with rotation `(original + 180) mod 360` for
`flip_edge = short`; the mirroring preserves `page_index`. -/
theorem duplex_back_mirror_spec (front : List GridCell) (layout : ImpositionLayout)
    (config : ImpositionConfig) (tw th : ℚ) (i : ℕ) (fc : GridCell)
    (hf : front[i]? = some fc) :
    ∃ bc, (create_duplex_back front layout config tw th)[i]? = some bc ∧
      bc.page_index = fc.page_index ∧
      (config.flip_edge = FlipEdge.long →
        bc.row = fc.row ∧ bc.col = layout.cols - 1 - fc.col ∧
        bc.rotation = fc.rotation) ∧
      (config.flip_edge = FlipEdge.short →
        bc.row = layout.rows - 1 - fc.row ∧ bc.col = fc.col ∧
        bc.rotation = (fc.rotation + 180) % 360) := by
  refine ⟨posCell layout config.sheet config.bleed config.gap_between_items tw th
      (cellBleedUpdate (front.map (mirrorCell config.flip_edge layout.rows layout.cols))
        layout.rows layout.cols config.bleed config.gap_between_items
        (mirrorCell config.flip_edge layout.rows layout.cols fc)), ?_, ?_, ?_, ?_⟩
  · rw [create_duplex_back, calculate_cell_positions, List.getElem?_map,
      calculate_per_cell_bleed, List.getElem?_map, List.getElem?_map, hf]
    rfl
  · simp only [posCell_page, cellBleedUpdate_page]
    cases config.flip_edge <;> rfl
  · intro h
    simp only [posCell_row, posCell_col, posCell_rot, cellBleedUpdate_row,
      cellBleedUpdate_col, cellBleedUpdate_rot, h, mirrorCell]
    refine ⟨?_, ?_, ?_⟩ <;> trivial
  · intro h
    simp only [posCell_row, posCell_col, posCell_rot, cellBleedUpdate_row,
      cellBleedUpdate_col, cellBleedUpdate_rot, h, mirrorCell]
    refine ⟨?_, ?_, ?_⟩ <;> trivial

/-- Witness for C2 on a concrete 2×3 front grid (scenario S6 of the spec):
front cell `(0,0)` with long-edge flip lands at `(0,2)`. -/
theorem duplex_back_mirror_spec_witness :
    ([mkCell 0 0 (some 4) 0] : List GridCell)[0]? = some (mkCell 0 0 (some 4) 0) ∧
    ∃ bc, (create_duplex_back [mkCell 0 0 (some 4) 0] ⟨2, 3, 6, 1, 0, []⟩
        ⟨ImpositionMode.step_and_repeat, 10, 10, ⟨0, 0, 0, 0⟩,
         ⟨100, 100, Orientation.landscape, 0, 0⟩, 0, true, FlipEdge.long, false⟩
        10 10)[0]? = some bc ∧
      bc.page_index = (mkCell 0 0 (some 4) 0).page_index ∧
      (FlipEdge.long = FlipEdge.long →
        bc.row = (mkCell 0 0 (some 4) 0).row ∧
        bc.col = (3 : ℤ) - 1 - (mkCell 0 0 (some 4) 0).col ∧
        bc.rotation = (mkCell 0 0 (some 4) 0).rotation) ∧
      (FlipEdge.long = FlipEdge.short →
        bc.row = (2 : ℤ) - 1 - (mkCell 0 0 (some 4) 0).row ∧
        bc.col = (mkCell 0 0 (some 4) 0).col ∧
        bc.rotation = ((mkCell 0 0 (some 4) 0).rotation + 180) % 360) :=
  ⟨rfl,
    duplex_back_mirror_spec [mkCell 0 0 (some 4) 0] ⟨2, 3, 6, 1, 0, []⟩
      ⟨ImpositionMode.step_and_repeat, 10, 10, ⟨0, 0, 0, 0⟩,
       ⟨100, 100, Orientation.landscape, 0, 0⟩, 0, true, FlipEdge.long, false⟩
      10 10 0 (mkCell 0 0 (some 4) 0) rfl⟩

/-! ## C10 — saddle-stitch backs always use the long-edge mirror -/

/-- C10: in `pdf_output._build_saddle_stitch` the back grid of every sheet is
produced by reversing columns only — `col = cols − 1 − col` with rows and
rotation unchanged — for every value of `flip_edge`; the short-edge rule of
`create_duplex_back` (row reversal plus 180° rotation) is never applied. -/
theorem saddle_back_long_edge_only (config : ImpositionConfig)
    (layout : ImpositionLayout) (bp : List (Option ℕ)) (tw th : ℚ) :
    (∀ fe : FlipEdge,
      saddleBackGrid { config with flip_edge := fe } layout bp tw th =
        saddleBackGrid config layout bp tw th) ∧
    (∀ (i : ℕ) (p : Option ℕ), bp[i]? = some p →
      ∃ c, (saddleBackGrid config layout bp tw th)[i]? = some c ∧
        c.row = (i : ℤ) / layout.cols ∧
        c.col = layout.cols - 1 - (i : ℤ) % layout.cols ∧
        c.rotation = layout.cell_rotation ∧
        c.page_index = p) := by
  constructor
  · intro fe
    rfl
  · intro i p hp
    refine ⟨posCell layout config.sheet config.bleed config.gap_between_items tw th
        (cellBleedUpdate
          (((bp.enum.map (fun ip =>
              mkCell ((ip.1 : ℤ) / layout.cols) ((ip.1 : ℤ) % layout.cols) ip.2
                layout.cell_rotation)).map
            (fun cell => { cell with col := (layout.cols - 1) - cell.col })))
          layout.rows layout.cols config.bleed config.gap_between_items
          ({ mkCell ((i : ℤ) / layout.cols) ((i : ℤ) % layout.cols) p
              layout.cell_rotation with
             col := (layout.cols - 1) -
               (mkCell ((i : ℤ) / layout.cols) ((i : ℤ) % layout.cols) p
                 layout.cell_rotation).col })), ?_, ?_, ?_, ?_, ?_⟩
    · rw [saddleBackGrid, calculate_cell_positions, List.getElem?_map,
        calculate_per_cell_bleed, List.getElem?_map, List.getElem?_map,
        List.getElem?_map, List.getElem?_enum, hp]
      rfl
    · simp [mkCell]
    · simp [mkCell]
    · simp [mkCell]
    · simp [mkCell]

/-- Witness for C10: the first back slot of an 8-page A5 booklet signature. -/
theorem saddle_back_long_edge_only_witness :
    ([some 1, some 6] : List (Option ℕ))[0]? = some (some 1) ∧
    ∃ c, (saddleBackGrid
        ⟨ImpositionMode.booklet_saddle_stitch, 148, 210, ⟨3, 3, 3, 3⟩,
         ⟨450, 320, Orientation.landscape, 10, 8⟩, 0, false, FlipEdge.short, true⟩
        ⟨1, 2, 2, 2, 0, []⟩ [some 1, some 6] 148 210)[0]? = some c ∧
      c.row = (0 : ℤ) / 2 ∧
      c.col = 2 - 1 - (0 : ℤ) % 2 ∧
      c.rotation = 0 ∧
      c.page_index = some 1 :=
  ⟨rfl,
    (saddle_back_long_edge_only
      ⟨ImpositionMode.booklet_saddle_stitch, 148, 210, ⟨3, 3, 3, 3⟩,
       ⟨450, 320, Orientation.landscape, 10, 8⟩, 0, false, FlipEdge.short, true⟩
      ⟨1, 2, 2, 2, 0, []⟩ [some 1, some 6] 148 210).2 0 (some 1) rfl⟩

/-! ## C3 — interior/exterior edge classification -/

/-- Per-edge view of `EdgeBleed` (the source reads the field named by the
edge string). -/
def edgeBleedOf (c : GridCell) (e : Edge) : ℚ :=
  match e with
  | Edge.top => c.bleed_per_edge.top
  | Edge.bottom => c.bleed_per_edge.bottom
  | Edge.left => c.bleed_per_edge.left
  | Edge.right => c.bleed_per_edge.right

/-- Per-edge view of `EdgeFlags`. -/
def edgeFlagOf (c : GridCell) (e : Edge) : Bool :=
  match e with
  | Edge.top => c.is_interior_edge.top
  | Edge.bottom => c.is_interior_edge.bottom
  | Edge.left => c.is_interior_edge.left
  | Edge.right => c.is_interior_edge.right

/-- C3 (amended): after `calculate_per_cell_bleed`, for every occupied cell
and edge: with `gap > 0` the edge is exterior with the configured bleed; with
`gap = 0` the edge is exterior (configured bleed, flag false) exactly when
the neighbour is out of grid or blank, and interior (zero bleed, flag true)
when the neighbour holds a page.  Moreover `is_interior_edge.e = true`
implies `bleed_per_edge.e = 0`, and `is_interior_edge.e = false` implies
`bleed_per_edge.e` equals the configured bleed for `e` (which may itself be
zero, so the converse implication fails in general — see the
counterexample). -/
theorem per_cell_bleed_spec (grid : List GridCell) (layout : ImpositionLayout)
    (bc : BleedConfig) (gap : ℚ) (i : ℕ) (cell : GridCell)
    (hg : grid[i]? = some cell) (hp : ¬cell.page_index = none) :
    ∃ c, (calculate_per_cell_bleed grid layout bc gap)[i]? = some c ∧
      ∀ e : Edge,
        (gap > 0 →
          edgeBleedOf c e = getBleedForEdge bc e ∧ edgeFlagOf c e = false) ∧
        (gap = 0 → getNeighbor grid cell e layout.rows layout.cols = none →
          edgeBleedOf c e = getBleedForEdge bc e ∧ edgeFlagOf c e = false) ∧
        (gap = 0 → ∀ nb, getNeighbor grid cell e layout.rows layout.cols = some nb →
          nb.page_index = none →
          edgeBleedOf c e = getBleedForEdge bc e ∧ edgeFlagOf c e = false) ∧
        (gap = 0 → ∀ nb, getNeighbor grid cell e layout.rows layout.cols = some nb →
          ¬nb.page_index = none →
          edgeBleedOf c e = 0 ∧ edgeFlagOf c e = true) ∧
        (edgeFlagOf c e = true → edgeBleedOf c e = 0) ∧
        (edgeFlagOf c e = false → edgeBleedOf c e = getBleedForEdge bc e) := by
  refine ⟨cellBleedUpdate grid layout.rows layout.cols bc gap cell, ?_, ?_⟩
  · rw [calculate_per_cell_bleed, List.getElem?_map, hg]
    rfl
  · intro e
    have hb : ∀ e', edgeBleedOf (cellBleedUpdate grid layout.rows layout.cols bc gap cell) e' =
        edgeBleedValue grid cell e' layout.rows layout.cols bc gap := by
      intro e'
      rw [cellBleedUpdate, if_neg hp]
      cases e' <;> rfl
    have hf : ∀ e', edgeFlagOf (cellBleedUpdate grid layout.rows layout.cols bc gap cell) e' =
        edgeInteriorValue grid cell e' layout.rows layout.cols gap := by
      intro e'
      rw [cellBleedUpdate, if_neg hp]
      cases e' <;> rfl
    rw [hb, hf]
    refine ⟨?_, ?_, ?_, ?_, ?_, ?_⟩
    · intro hgap
      rw [edgeBleedValue, edgeInteriorValue, if_pos hgap, if_pos hgap]
      exact ⟨rfl, rfl⟩
    · intro hgap hnb
      have hng : ¬gap > 0 := by rw [hgap]; exact lt_irrefl 0
      rw [edgeBleedValue, edgeInteriorValue, if_neg hng, if_neg hng, hnb]
      exact ⟨rfl, rfl⟩
    · intro hgap nb hnb hnp
      have hng : ¬gap > 0 := by rw [hgap]; exact lt_irrefl 0
      rw [edgeBleedValue, edgeInteriorValue, if_neg hng, if_neg hng, hnb]
      simp [hnp]
    · intro hgap nb hnb hnp
      have hng : ¬gap > 0 := by rw [hgap]; exact lt_irrefl 0
      rw [edgeBleedValue, edgeInteriorValue, if_neg hng, if_neg hng, hnb]
      simp [hnp]
    · intro hflag
      rw [edgeBleedValue]
      rw [edgeInteriorValue] at hflag
      by_cases hgap : gap > 0
      · rw [if_pos hgap] at hflag; simp at hflag
      · rw [if_neg hgap] at hflag
        rw [if_neg hgap]
        cases hnb : getNeighbor grid cell e layout.rows layout.cols with
        | none => rw [hnb] at hflag; simp at hflag
        | some nb =>
          rw [hnb] at hflag
          by_cases hnp : nb.page_index = none
          · simp [hnp] at hflag
          · simp [hnp]
    · intro hflag
      rw [edgeBleedValue]
      rw [edgeInteriorValue] at hflag
      by_cases hgap : gap > 0
      · rw [if_pos hgap]
      · rw [if_neg hgap] at hflag
        rw [if_neg hgap]
        cases hnb : getNeighbor grid cell e layout.rows layout.cols with
        | none => rfl
        | some nb =>
          rw [hnb] at hflag
          by_cases hnp : nb.page_index = none
          · simp [hnp]
          · simp [hnp] at hflag

def gridC3W : List GridCell := [mkCell 0 0 (some 0) 0, mkCell 0 1 (some 1) 0]

def layoutC3W : ImpositionLayout := ⟨1, 2, 2, 1, 0, []⟩

/-- Witness for C3 (amended) on a concrete 1×2 occupied grid. -/
theorem per_cell_bleed_spec_witness :
    (gridC3W[0]? = some (mkCell 0 0 (some 0) 0) ∧
      ¬(mkCell 0 0 (some 0) 0).page_index = none) ∧
    (∃ c, (calculate_per_cell_bleed gridC3W layoutC3W ⟨3, 3, 3, 3⟩ 0)[0]? = some c ∧
      ∀ e : Edge,
        ((0 : ℚ) > 0 →
          edgeBleedOf c e = getBleedForEdge ⟨3, 3, 3, 3⟩ e ∧ edgeFlagOf c e = false) ∧
        ((0 : ℚ) = 0 →
          getNeighbor gridC3W (mkCell 0 0 (some 0) 0) e layoutC3W.rows layoutC3W.cols = none →
          edgeBleedOf c e = getBleedForEdge ⟨3, 3, 3, 3⟩ e ∧ edgeFlagOf c e = false) ∧
        ((0 : ℚ) = 0 → ∀ nb,
          getNeighbor gridC3W (mkCell 0 0 (some 0) 0) e layoutC3W.rows layoutC3W.cols = some nb →
          nb.page_index = none →
          edgeBleedOf c e = getBleedForEdge ⟨3, 3, 3, 3⟩ e ∧ edgeFlagOf c e = false) ∧
        ((0 : ℚ) = 0 → ∀ nb,
          getNeighbor gridC3W (mkCell 0 0 (some 0) 0) e layoutC3W.rows layoutC3W.cols = some nb →
          ¬nb.page_index = none →
          edgeBleedOf c e = 0 ∧ edgeFlagOf c e = true) ∧
        (edgeFlagOf c e = true → edgeBleedOf c e = 0) ∧
        (edgeFlagOf c e = false → edgeBleedOf c e = getBleedForEdge ⟨3, 3, 3, 3⟩ e)) :=
  ⟨⟨rfl, by simp [mkCell]⟩,
    per_cell_bleed_spec gridC3W layoutC3W ⟨3, 3, 3, 3⟩ 0 0 (mkCell 0 0 (some 0) 0)
      rfl (by simp [mkCell])⟩

def gridC3X : List GridCell := [mkCell 0 0 (some 0) 0]

def layoutC3X : ImpositionLayout := ⟨1, 1, 1, 1, 0, []⟩

/-- Counterexample to C3's "bleed_per_edge.e = 0 exactly when
is_interior_edge.e = true": with a configured bleed of 0 and `gap = 0`, the
single occupied cell of a 1×1 grid gets `bleed_per_edge.top = 0` while
`is_interior_edge.top = false` (the edge is exterior), so zero bleed does not
imply an interior edge. -/
theorem per_cell_bleed_iff_counterexample :
    (calculate_per_cell_bleed gridC3X layoutC3X ⟨0, 0, 0, 0⟩ 0)[0]? =
      some (mkCell 0 0 (some 0) 0) ∧
    (mkCell 0 0 (some 0) 0).page_index = some 0 ∧
    (mkCell 0 0 (some 0) 0).bleed_per_edge.top = 0 ∧
    (mkCell 0 0 (some 0) 0).is_interior_edge.top = false := by
  refine ⟨?_, rfl, rfl, rfl⟩
  rfl

/-! ## Planner helper lemmas -/

theorem landscape_ne_portrait : ¬(Orientation.landscape = Orientation.portrait) := by decide

theorem portrait_ne_landscape : ¬(Orientation.portrait = Orientation.landscape) := by decide

theorem clamp1_one_le (z : ℤ) : 1 ≤ clamp1 z := by
  rw [clamp1]; split <;> omega

theorem clamp1_of_one_le {z : ℤ} (h : 1 ≤ z) : clamp1 z = z := by
  rw [clamp1, if_neg (by omega)]

theorem calcGridCount_fst_nonneg (sw sh m g tw th : ℚ) (b : BleedConfig) (gap : ℚ) :
    0 ≤ (calcGridCount sw sh m g tw th b gap).1 := by
  rw [calcGridCount]
  split
  · norm_num
  · split <;> simp [le_max_right]

theorem calcGridCount_snd_nonneg (sw sh m g tw th : ℚ) (b : BleedConfig) (gap : ℚ) :
    0 ≤ (calcGridCount sw sh m g tw th b gap).2 := by
  rw [calcGridCount]
  split
  · norm_num
  · split <;> simp [le_max_right]

theorem layout_rows (config : ImpositionConfig) (P k : ℕ) :
    (calculate_imposition_layout config P k).rows = clamp1 (plannerBest config).2.1 := rfl

theorem layout_cols (config : ImpositionConfig) (P k : ℕ) :
    (calculate_imposition_layout config P k).cols = clamp1 (plannerBest config).1 := rfl

theorem layout_n_up (config : ImpositionConfig) (P k : ℕ) :
    (calculate_imposition_layout config P k).n_up =
      clamp1 (plannerBest config).1 * clamp1 (plannerBest config).2.1 := rfl

theorem layout_rotation (config : ImpositionConfig) (P k : ℕ) :
    (calculate_imposition_layout config P k).cell_rotation = (plannerBest config).2.2 := rfl

theorem layout_n_up_one_le (config : ImpositionConfig) (P k : ℕ) :
    1 ≤ (calculate_imposition_layout config P k).n_up := by
  rw [layout_n_up]
  have h1 := clamp1_one_le (plannerBest config).1
  have h2 := clamp1_one_le (plannerBest config).2.1
  nlinarith

/-! ## C5 — fit validation and the unreachable ZeroNUp error -/

def cfgC5 : ImpositionConfig :=
  { mode := ImpositionMode.cut_and_stack, trim_width := 90, trim_height := 60,
    bleed := ⟨0, 0, 0, 0⟩, sheet := ⟨100, 100, Orientation.landscape, 10, 8⟩,
    gap_between_items := 0, duplex := false, flip_edge := FlipEdge.long,
    auto_rotate := false }

/-- Counterexample to C5: with a 100×100 sheet, `mark_margin = 8`,
`grip_edge = 10` and a 90×60 trim, a single trim+bleed rectangle does not fit
the printable area (width 90 > 84 available), yet the pipeline raises neither
`TrimExceedsSheet` (the check is against the full sheet) nor `ZeroNUp` (the
cols/rows clamp forces `n_up = 1`) and happily returns a layout. -/
theorem fit_failure_counterexample :
    cfgC5.trim_width + cfgC5.bleed.left + cfgC5.bleed.right >
      (orientedSheet cfgC5.sheet).1 - 2 * cfgC5.sheet.mark_margin ∧
    (validateAndLayout cfgC5 4).toOption.map ImpositionLayout.n_up = some 1 := by
  constructor
  · norm_num [cfgC5, orientedSheet, landscape_ne_portrait]
  · have hn : normalCounts cfgC5 = (0, 1) := by
      norm_num [normalCounts, calcGridCount, orientedSheet, pyInt, shrinkFit, cfgC5,
        landscape_ne_portrait, portrait_ne_landscape]
    have hb : plannerBest cfgC5 = (0, 1, 0) := by
      rw [plannerBest, if_neg]
      · rw [hn]
      · rw [show cfgC5.auto_rotate = false from rfl]
        simp
    have hval : validateAndLayout cfgC5 4 = Except.ok (calculate_imposition_layout cfgC5 4) := by
      rw [validateAndLayout]
      rw [if_neg (by norm_num [cfgC5, orientedSheet, landscape_ne_portrait]),
        if_neg (by norm_num [cfgC5, orientedSheet, landscape_ne_portrait]),
        if_neg (by have := layout_n_up_one_le cfgC5 4 0; omega)]
    rw [hval]
    have : (calculate_imposition_layout cfgC5 4).n_up = 1 := by
      rw [layout_n_up, hb]
      rfl
    simp [Except.toOption, this]

/-- C5 (amended): `validateAndLayout` fails with `TrimExceedsSheet` exactly
when `trim + bleed` exceeds the oriented sheet in either axis; otherwise it
always returns a layout with `n_up ≥ 1`.  Because `calculate_imposition_layout`
clamps `cols` and `rows` to at least 1, `n_up = 0` — and with it the `ZeroNUp`
error — is unreachable, even when nothing fits the printable area. -/
theorem validate_layout_spec (config : ImpositionConfig) (P : ℕ) :
    (validateAndLayout config P = Except.error ImposeError.TrimExceedsSheet ↔
      (config.trim_width + config.bleed.left + config.bleed.right >
          (orientedSheet config.sheet).1 ∨
        config.trim_height + config.bleed.top + config.bleed.bottom >
          (orientedSheet config.sheet).2)) ∧
    validateAndLayout config P ≠ Except.error ImposeError.ZeroNUp ∧
    (∀ l, validateAndLayout config P = Except.ok l → 1 ≤ l.n_up) := by
  have hn1 := layout_n_up_one_le config P 0
  rw [validateAndLayout]
  by_cases h1 : config.trim_width + config.bleed.left + config.bleed.right >
      (orientedSheet config.sheet).1
  · rw [if_pos h1]
    refine ⟨⟨fun _ => Or.inl h1, fun _ => rfl⟩, by simp, fun l hl => by cases hl⟩
  · rw [if_neg h1]
    by_cases h2 : config.trim_height + config.bleed.top + config.bleed.bottom >
        (orientedSheet config.sheet).2
    · rw [if_pos h2]
      refine ⟨⟨fun _ => Or.inr h2, fun _ => rfl⟩, by simp, fun l hl => by cases hl⟩
    · rw [if_neg h2, if_neg (by omega)]
      refine ⟨⟨(fun h => nomatch h), ?_⟩, by simp, fun l hl => ?_⟩
      · intro h
        rcases h with h | h
        · exact absurd h h1
        · exact absurd h h2
      · cases hl
        exact hn1

/-- Witness for C5 (amended) at the S4-style concrete config. -/
theorem validate_layout_spec_witness :
    (validateAndLayout cfgC5 4 = Except.error ImposeError.TrimExceedsSheet ↔
      (cfgC5.trim_width + cfgC5.bleed.left + cfgC5.bleed.right >
          (orientedSheet cfgC5.sheet).1 ∨
        cfgC5.trim_height + cfgC5.bleed.top + cfgC5.bleed.bottom >
          (orientedSheet cfgC5.sheet).2)) ∧
    validateAndLayout cfgC5 4 ≠ Except.error ImposeError.ZeroNUp ∧
    (∀ l, validateAndLayout cfgC5 4 = Except.ok l → 1 ≤ l.n_up) :=
  validate_layout_spec cfgC5 4

/-! ## C7 — saddle-stitch sheet counts -/

/-- Planner `total_sheets` for all non-step-and-repeat modes:
`max(1, ceil(P / pages_per_sheet))` with
`pages_per_sheet = n_up` (doubled when duplex). -/
theorem layout_total_sheets (config : ImpositionConfig) (P k : ℕ)
    (hmode : ¬config.mode = ImpositionMode.step_and_repeat) :
    (calculate_imposition_layout config P k).total_sheets =
      max 1 (ceilDiv P ((if config.duplex = true
        then clamp1 (plannerBest config).1 * clamp1 (plannerBest config).2.1 * 2
        else clamp1 (plannerBest config).1 * clamp1 (plannerBest config).2.1)).toNat) := by
  simp only [calculate_imposition_layout]
  rw [if_neg hmode]

/-- The A5-saddle-stitch-on-SRA3 configuration (scenario S2 of the spec). -/
def cfgS2 : ImpositionConfig :=
  { mode := ImpositionMode.booklet_saddle_stitch, trim_width := 148, trim_height := 210,
    bleed := ⟨3, 3, 3, 3⟩, sheet := ⟨450, 320, Orientation.landscape, 10, 8⟩,
    gap_between_items := 0, duplex := false, flip_edge := FlipEdge.long,
    auto_rotate := true }

theorem cfgS2_normalCounts : normalCounts cfgS2 = (2, 1) := by
  norm_num [normalCounts, calcGridCount, orientedSheet, pyInt, shrinkFit, cfgS2,
    landscape_ne_portrait, portrait_ne_landscape]

theorem cfgS2_rotatedCounts : rotatedCounts cfgS2 = (2, 1) := by
  norm_num [rotatedCounts, calcGridCount, orientedSheet, pyInt, shrinkFit, cfgS2,
    landscape_ne_portrait, portrait_ne_landscape]

theorem cfgS2_plannerBest : plannerBest cfgS2 = (2, 1, 0) := by
  simp only [plannerBest, cfgS2_normalCounts, cfgS2_rotatedCounts]
  norm_num

/-- Counterexample to C7: for the S2 scenario (saddle stitch, 2-up,
`duplex = false`) with `P = 8` pages, the planner's `total_sheets` is
`ceil(8 / n_up) = ceil(8 / 2) = 4`, not `ceil(P / 4) = 2` as claimed. -/
theorem saddle_total_sheets_counterexample :
    cfgS2.mode = ImpositionMode.booklet_saddle_stitch ∧
    cfgS2.duplex = false ∧
    (calculate_imposition_layout cfgS2 8).n_up = 2 ∧
    ceilDiv 8 4 = 2 ∧
    (calculate_imposition_layout cfgS2 8).total_sheets = 4 := by
  refine ⟨rfl, rfl, ?_, rfl, ?_⟩
  · rw [layout_n_up, cfgS2_plannerBest]
    rfl
  · rw [layout_total_sheets cfgS2 8 0 (by decide), cfgS2_plannerBest]
    rfl

/-- C7 (amended): in `booklet_saddle_stitch` mode the planner's
`total_sheets` is `max(1, ceil(P / pages_per_sheet))` with
`pages_per_sheet = n_up` (doubled when duplex) — `ceil(P/4)` only when
`pages_per_sheet = 4`; the signature iterator `get_saddle_stitch_sheets`
instead always produces `ceil(P/4)` signatures, each holding a 4-page
signature in 2-up (2 front slots and 2 back slots). -/
theorem saddle_total_sheets_spec (config : ImpositionConfig) (P : ℕ)
    (hmode : config.mode = ImpositionMode.booklet_saddle_stitch) :
    (calculate_imposition_layout config P).total_sheets =
      max 1 (ceilDiv P ((if config.duplex = true
        then (calculate_imposition_layout config P).n_up * 2
        else (calculate_imposition_layout config P).n_up)).toNat) ∧
    (get_saddle_stitch_sheets P).length = ceilDiv P 4 ∧
    (∀ s ∈ get_saddle_stitch_sheets P, s.1.length = 2 ∧ s.2.length = 2) := by
  refine ⟨?_, ?_, ?_⟩
  · rw [layout_n_up, layout_total_sheets config P 0 (by rw [hmode]; intro h; cases h)]
  · rw [get_saddle_stitch_sheets]
    simp only [List.length_map, List.length_range]
    exact Nat.mul_div_cancel (ceilDiv P 4) (by norm_num)
  · intro s hs
    rw [get_saddle_stitch_sheets] at hs
    simp only [List.mem_map] at hs
    obtain ⟨i, _, rfl⟩ := hs
    exact ⟨rfl, rfl⟩

/-- Witness for C7 (amended) at the S2 scenario with 8 pages. -/
theorem saddle_total_sheets_spec_witness :
    cfgS2.mode = ImpositionMode.booklet_saddle_stitch ∧
    ((calculate_imposition_layout cfgS2 8).total_sheets =
      max 1 (ceilDiv 8 ((if cfgS2.duplex = true
        then (calculate_imposition_layout cfgS2 8).n_up * 2
        else (calculate_imposition_layout cfgS2 8).n_up)).toNat) ∧
    (get_saddle_stitch_sheets 8).length = ceilDiv 8 4 ∧
    (∀ s ∈ get_saddle_stitch_sheets 8, s.1.length = 2 ∧ s.2.length = 2)) :=
  ⟨rfl, saddle_total_sheets_spec cfgS2 8 rfl⟩

/-! ## C8 — auto-rotate monotonicity -/

theorem normalCounts_fst_nonneg (config : ImpositionConfig) :
    0 ≤ (normalCounts config).1 :=
  calcGridCount_fst_nonneg _ _ _ _ _ _ _ _

theorem normalCounts_snd_nonneg (config : ImpositionConfig) :
    0 ≤ (normalCounts config).2 :=
  calcGridCount_snd_nonneg _ _ _ _ _ _ _ _

theorem rotatedCounts_fst_nonneg (config : ImpositionConfig) :
    0 ≤ (rotatedCounts config).1 :=
  calcGridCount_fst_nonneg _ _ _ _ _ _ _ _

theorem rotatedCounts_snd_nonneg (config : ImpositionConfig) :
    0 ≤ (rotatedCounts config).2 :=
  calcGridCount_snd_nonneg _ _ _ _ _ _ _ _

/-- A configuration on which `auto_rotate` decreases `n_up`: 100×500 portrait
sheet with no margins, trim 150×90.  Unrotated, no column fits (cols = 0,
clamped to 1) but 5 rows do; rotated, a 1×3 grid fits. -/
def cfgC8 (ar : Bool) : ImpositionConfig :=
  { mode := ImpositionMode.cut_and_stack, trim_width := 150, trim_height := 90,
    bleed := ⟨0, 0, 0, 0⟩, sheet := ⟨100, 500, Orientation.portrait, 0, 0⟩,
    gap_between_items := 0, duplex := false, flip_edge := FlipEdge.long,
    auto_rotate := ar }

theorem cfgC8_normalCounts (ar : Bool) : normalCounts (cfgC8 ar) = (0, 5) := by
  norm_num [normalCounts, calcGridCount, orientedSheet, pyInt, shrinkFit, cfgC8,
    landscape_ne_portrait, portrait_ne_landscape]

theorem cfgC8_rotatedCounts (ar : Bool) : rotatedCounts (cfgC8 ar) = (1, 3) := by
  norm_num [rotatedCounts, calcGridCount, orientedSheet, pyInt, shrinkFit, cfgC8,
    landscape_ne_portrait, portrait_ne_landscape]

/-- Counterexample to C8: on `cfgC8`, `auto_rotate = true` yields `n_up = 3`
while `auto_rotate = false` yields `n_up = 5` (all else equal) — the rotated
candidate wins the pre-clamp comparison `3 > 0`, but the losing unrotated
pair `(0, 5)` is afterwards clamped to `(1, 5)`, so enabling auto-rotate
strictly decreases `n_up`. -/
theorem auto_rotate_counterexample :
    (calculate_imposition_layout (cfgC8 true) 1).n_up = 3 ∧
    (calculate_imposition_layout (cfgC8 false) 1).n_up = 5 ∧
    (calculate_imposition_layout (cfgC8 true) 1).n_up <
      (calculate_imposition_layout (cfgC8 false) 1).n_up := by
  have hbt : plannerBest (cfgC8 true) = (1, 3, 90) := by
    rw [plannerBest, if_pos]
    · rw [cfgC8_rotatedCounts]
    · rw [cfgC8_rotatedCounts, cfgC8_normalCounts]
      exact ⟨rfl, by norm_num⟩
  have hbf : plannerBest (cfgC8 false) = (0, 5, 0) := by
    rw [plannerBest, if_neg]
    · rw [cfgC8_normalCounts]
    · intro hcond
      exact absurd hcond.1 (by simp [cfgC8])
  refine ⟨?_, ?_, ?_⟩
  · rw [layout_n_up, hbt]; rfl
  · rw [layout_n_up, hbf]; rfl
  · rw [layout_n_up, hbt, layout_n_up, hbf]; norm_num [clamp1]

/-- C8 (amended): provided the unrotated orientation fits at least one
column and one row before clamping (`normalCounts ≥ (1, 1)`), enabling
`auto_rotate` never decreases `n_up`; the rotated orientation
(`cell_rotation = 90`) is selected exactly when its n-up is strictly larger
than the unrotated one, and on ties (or worse) the unrotated orientation
wins with `cell_rotation = 0` and the same grid dimensions.  (When the
unrotated pre-clamp count is zero the clamp can make `auto_rotate` decrease
`n_up` — see the counterexample.) -/
theorem auto_rotate_spec (config : ImpositionConfig) (P : ℕ)
    (hc : 1 ≤ (normalCounts config).1) (hr : 1 ≤ (normalCounts config).2) :
    (calculate_imposition_layout { config with auto_rotate := false } P).n_up ≤
      (calculate_imposition_layout { config with auto_rotate := true } P).n_up ∧
    ((calculate_imposition_layout { config with auto_rotate := true } P).cell_rotation = 90 ↔
      (rotatedCounts config).1 * (rotatedCounts config).2 >
        (normalCounts config).1 * (normalCounts config).2) ∧
    ((rotatedCounts config).1 * (rotatedCounts config).2 ≤
        (normalCounts config).1 * (normalCounts config).2 →
      (calculate_imposition_layout { config with auto_rotate := true } P).rows =
        (calculate_imposition_layout { config with auto_rotate := false } P).rows ∧
      (calculate_imposition_layout { config with auto_rotate := true } P).cols =
        (calculate_imposition_layout { config with auto_rotate := false } P).cols ∧
      (calculate_imposition_layout { config with auto_rotate := true } P).cell_rotation = 0) := by
  have hbf : plannerBest { config with auto_rotate := false } =
      ((normalCounts config).1, (normalCounts config).2, 0) := by
    rw [plannerBest, if_neg]
    · rfl
    · intro hcond
      exact absurd hcond.1 (by simp)
  by_cases hgt : (rotatedCounts config).1 * (rotatedCounts config).2 >
      (normalCounts config).1 * (normalCounts config).2
  · have hbt : plannerBest { config with auto_rotate := true } =
        ((rotatedCounts config).1, (rotatedCounts config).2, 90) := by
      rw [plannerBest, if_pos ⟨rfl, hgt⟩]
      rfl
    have ha : 0 ≤ (rotatedCounts config).1 := rotatedCounts_fst_nonneg config
    have hb : 0 ≤ (rotatedCounts config).2 := rotatedCounts_snd_nonneg config
    have hone : (1 : ℤ) ≤ (normalCounts config).1 * (normalCounts config).2 := by nlinarith
    have hprod : 0 < (rotatedCounts config).1 * (rotatedCounts config).2 := by linarith
    have ha1 : 1 ≤ (rotatedCounts config).1 := by
      rcases lt_or_ge (rotatedCounts config).1 1 with h | h
      · have h0 : (rotatedCounts config).1 = 0 := by omega
        rw [h0, zero_mul] at hprod
        exact absurd hprod (lt_irrefl 0)
      · exact h
    have hb1 : 1 ≤ (rotatedCounts config).2 := by
      rcases lt_or_ge (rotatedCounts config).2 1 with h | h
      · have h0 : (rotatedCounts config).2 = 0 := by omega
        rw [h0, mul_zero] at hprod
        exact absurd hprod (lt_irrefl 0)
      · exact h
    refine ⟨?_, ?_, ?_⟩
    · rw [layout_n_up, layout_n_up, hbt, hbf]
      rw [clamp1_of_one_le hc, clamp1_of_one_le hr, clamp1_of_one_le ha1,
        clamp1_of_one_le hb1]
      exact le_of_lt hgt
    · rw [layout_rotation, hbt]
      exact ⟨fun _ => hgt, fun _ => rfl⟩
    · intro hle
      exact absurd hgt (not_lt.mpr hle)
  · have hbt : plannerBest { config with auto_rotate := true } =
        ((normalCounts config).1, (normalCounts config).2, 0) := by
      rw [plannerBest, if_neg]
      · rfl
      · intro hcond
        exact hgt hcond.2
    refine ⟨?_, ?_, ?_⟩
    · rw [layout_n_up, layout_n_up, hbt, hbf]
    · rw [layout_rotation, hbt]
      constructor
      · intro h90
        exact absurd h90 (by norm_num)
      · intro h
        exact absurd h hgt
    · intro _
      rw [layout_rows, layout_rows, layout_cols, layout_cols, layout_rotation, hbt, hbf]
      exact ⟨rfl, rfl, rfl⟩

/-- Witness for C8 (amended) at the S2 configuration, whose unrotated grid
fits `(2, 1)` before clamping. -/
theorem auto_rotate_spec_witness :
    (1 ≤ (normalCounts cfgS2).1 ∧ 1 ≤ (normalCounts cfgS2).2) ∧
    ((calculate_imposition_layout { cfgS2 with auto_rotate := false } 8).n_up ≤
      (calculate_imposition_layout { cfgS2 with auto_rotate := true } 8).n_up ∧
    ((calculate_imposition_layout { cfgS2 with auto_rotate := true } 8).cell_rotation = 90 ↔
      (rotatedCounts cfgS2).1 * (rotatedCounts cfgS2).2 >
        (normalCounts cfgS2).1 * (normalCounts cfgS2).2) ∧
    ((rotatedCounts cfgS2).1 * (rotatedCounts cfgS2).2 ≤
        (normalCounts cfgS2).1 * (normalCounts cfgS2).2 →
      (calculate_imposition_layout { cfgS2 with auto_rotate := true } 8).rows =
        (calculate_imposition_layout { cfgS2 with auto_rotate := false } 8).rows ∧
      (calculate_imposition_layout { cfgS2 with auto_rotate := true } 8).cols =
        (calculate_imposition_layout { cfgS2 with auto_rotate := false } 8).cols ∧
      (calculate_imposition_layout { cfgS2 with auto_rotate := true } 8).cell_rotation = 0)) :=
  ⟨⟨by rw [cfgS2_normalCounts]; norm_num, by rw [cfgS2_normalCounts]⟩,
    auto_rotate_spec cfgS2 8 (by rw [cfgS2_normalCounts]; norm_num)
      (by rw [cfgS2_normalCounts])⟩

/-! ## C1 — saddle-stitch signature law -/

theorem flatMap_congr_mem {α β : Type} (l : List α) (f g : α → List β)
    (h : ∀ a ∈ l, f a = g a) : l.flatMap f = l.flatMap g := by
  induction l with
  | nil => rfl
  | cons a t ih =>
    simp only [List.flatMap_cons]
    rw [h a (by simp), ih (fun x hx => h x (by simp [hx]))]

theorem perm_flatMap_congr {α β : Type} (l : List α) (f g : α → List β)
    (h : ∀ a ∈ l, (f a).Perm (g a)) : (l.flatMap f).Perm (l.flatMap g) := by
  induction l with
  | nil => exact List.Perm.refl _
  | cons a t ih =>
    simp only [List.flatMap_cons]
    exact (h a (by simp)).append (ih (fun x hx => h x (by simp [hx])))

theorem flatMap_append_perm {α β : Type} (l : List α) (f g : α → List β) :
    (l.flatMap (fun a => f a ++ g a)).Perm (l.flatMap f ++ l.flatMap g) := by
  induction l with
  | nil => simp
  | cons a t ih =>
    simp only [List.flatMap_cons]
    refine (List.Perm.append_left (f a ++ g a) ih).trans ?_
    rw [List.append_assoc, List.append_assoc]
    refine List.Perm.append_left (f a) ?_
    rw [← List.append_assoc, ← List.append_assoc]
    exact List.Perm.append_right _ List.perm_append_comm

/-- The ascending halves `[2i, 2i+1]` of the signature pairings tile
`[0, 2q)` exactly. -/
theorem bindPairsAsc (q : ℕ) :
    (List.range q).flatMap (fun i => [2 * i, 2 * i + 1]) = List.range (2 * q) := by
  induction q with
  | zero => rfl
  | succ q ih =>
    rw [List.range_succ, List.flatMap_append, ih,
      show 2 * (q + 1) = (2 * q + 1) + 1 from by omega, List.range_succ,
      show (2 * q + 1 : ℕ) = (2 * q) + 1 from rfl, List.range_succ]
    simp [List.append_assoc]

/-- The descending halves `[a + 2(q−1−i), a + 2(q−1−i) + 1]` are a
permutation of `[a, a + 2q)`. -/
theorem bindPairsDesc (q a : ℕ) :
    ((List.range q).flatMap
      (fun i => [a + 2 * (q - 1 - i), a + 2 * (q - 1 - i) + 1])).Perm
      ((List.range (2 * q)).map (a + ·)) := by
  induction q generalizing a with
  | zero => simp
  | succ q ih =>
    rw [List.range_succ, List.flatMap_append]
    have hcong : (List.range q).flatMap
        (fun i => [a + 2 * (q + 1 - 1 - i), a + 2 * (q + 1 - 1 - i) + 1]) =
        (List.range q).flatMap
          (fun i => [(a + 2) + 2 * (q - 1 - i), (a + 2) + 2 * (q - 1 - i) + 1]) := by
      apply flatMap_congr_mem
      intro i hi
      rw [List.mem_range] at hi
      rw [show a + 2 * (q + 1 - 1 - i) = (a + 2) + 2 * (q - 1 - i) from by omega]
    have hsing : ([q] : List ℕ).flatMap
        (fun i => [a + 2 * (q + 1 - 1 - i), a + 2 * (q + 1 - 1 - i) + 1]) = [a, a + 1] := by
      simp [show q + 1 - 1 - q = 0 from by omega]
    rw [hcong, hsing]
    have hrange : (List.range (2 * (q + 1))).map (a + ·) =
        [a, a + 1] ++ (List.range (2 * q)).map ((a + 2) + ·) := by
      rw [show 2 * (q + 1) = 2 + 2 * q from by omega, List.range_add,
        List.map_append, List.map_map]
      congr 1
      exact List.map_congr_left (fun x _ => by simp only [Function.comp_apply]; omega)
    refine (List.Perm.append_right [a, a + 1] (ih (a + 2))).trans ?_
    rw [hrange]
    exact List.perm_append_comm

/-- The raw saddle-stitch pairings enumerate every page number in
`[0, 4·ceil(P/4))` exactly once. -/
theorem saddleRaw_perm (P : ℕ) :
    ((saddleRawSheets P).flatMap (fun s => s.1 ++ s.2)).Perm
      (List.range (ceilDiv P 4 * 4)) := by
  have hdiv : ceilDiv P 4 * 4 / 4 = ceilDiv P 4 := Nat.mul_div_cancel _ (by norm_num)
  simp only [saddleRawSheets, List.flatMap_map, hdiv]
  refine (perm_flatMap_congr (List.range (ceilDiv P 4)) _
      (fun i => [2 * i, 2 * i + 1] ++
        [ceilDiv P 4 * 4 - 2 * i - 2, ceilDiv P 4 * 4 - 2 * i - 1]) ?_).trans ?_
  · intro i _
    exact (List.perm_append_singleton (ceilDiv P 4 * 4 - 2 * i - 1)
      [2 * i, 2 * i + 1, ceilDiv P 4 * 4 - 2 * i - 2]).symm
  · refine (flatMap_append_perm _ _ _).trans ?_
    rw [bindPairsAsc]
    have hbody : (List.range (ceilDiv P 4)).flatMap
        (fun i => [ceilDiv P 4 * 4 - 2 * i - 2, ceilDiv P 4 * 4 - 2 * i - 1]) =
        (List.range (ceilDiv P 4)).flatMap
          (fun i => [2 * ceilDiv P 4 + 2 * (ceilDiv P 4 - 1 - i),
                     2 * ceilDiv P 4 + 2 * (ceilDiv P 4 - 1 - i) + 1]) := by
      apply flatMap_congr_mem
      intro i hi
      rw [List.mem_range] at hi
      rw [show ceilDiv P 4 * 4 - 2 * i - 2 =
            2 * ceilDiv P 4 + 2 * (ceilDiv P 4 - 1 - i) from by omega,
          show ceilDiv P 4 * 4 - 2 * i - 1 =
            2 * ceilDiv P 4 + 2 * (ceilDiv P 4 - 1 - i) + 1 from by omega]
    rw [hbody]
    refine (List.Perm.append_left _
      (bindPairsDesc (ceilDiv P 4) (2 * ceilDiv P 4))).trans ?_
    rw [← List.range_add, show 2 * ceilDiv P 4 + 2 * ceilDiv P 4 = ceilDiv P 4 * 4 from by omega]

/-- C1: for every `P ≥ 1`, with `total = 4·ceil(P/4)`, the saddle-stitch
builder produces `total/4` signatures; signature `i` has front pages
`[total − 2i − 1, 2i]` and back pages `[2i + 1, total − 2i − 2]`, each slot
masked to `None` exactly when its page number is `≥ P`; the multiset union
of the page numbers assigned over all signatures (the raw pairings, before
the `None` masking) equals `{0, …, total − 1}`; and for `P = 8` the two
signatures are front `[7, 0]` / back `[1, 6]` and front `[5, 2]` /
back `[3, 4]`. -/
theorem saddle_stitch_signature_spec (P : ℕ) (hP : 1 ≤ P) :
    (get_saddle_stitch_sheets P).length = ceilDiv P 4 ∧
    (∀ i, i < ceilDiv P 4 →
      (get_saddle_stitch_sheets P)[i]? = some
        ([if ceilDiv P 4 * 4 - 2 * i - 1 < P
            then some (ceilDiv P 4 * 4 - 2 * i - 1) else none,
          if 2 * i < P then some (2 * i) else none],
         [if 2 * i + 1 < P then some (2 * i + 1) else none,
          if ceilDiv P 4 * 4 - 2 * i - 2 < P
            then some (ceilDiv P 4 * 4 - 2 * i - 2) else none])) ∧
    (∀ s ∈ get_saddle_stitch_sheets P, ∀ o ∈ s.1 ++ s.2, ∀ p, o = some p → p < P) ∧
    get_saddle_stitch_sheets P = (saddleRawSheets P).map (fun s =>
      (s.1.map (fun p => if p < P then some p else none),
       s.2.map (fun p => if p < P then some p else none))) ∧
    (((saddleRawSheets P).flatMap (fun s => s.1 ++ s.2) : List ℕ) : Multiset ℕ) =
      Multiset.range (ceilDiv P 4 * 4) := by
  have hdiv : ceilDiv P 4 * 4 / 4 = ceilDiv P 4 := Nat.mul_div_cancel _ (by norm_num)
  refine ⟨?_, ?_, ?_, ?_, ?_⟩
  · simp only [get_saddle_stitch_sheets, List.length_map, List.length_range, hdiv]
  · intro i hi
    simp only [get_saddle_stitch_sheets, List.getElem?_map, hdiv,
      List.getElem?_range hi]
    rfl
  · intro s hs o ho p hop
    simp only [get_saddle_stitch_sheets, List.mem_map, hdiv] at hs
    obtain ⟨i, _, rfl⟩ := hs
    simp only [List.mem_append, List.mem_cons, List.not_mem_nil, or_false] at ho
    rcases ho with (h | h) | (h | h) <;> subst h <;>
      · split at hop
        · cases hop
          assumption
        · cases hop
  · simp only [get_saddle_stitch_sheets, saddleRawSheets, List.map_map]
    rfl
  · exact Multiset.coe_eq_coe.mpr (saddleRaw_perm P)

/-- Witness for C1 at `P = 8`: the concrete S2 signatures. -/
theorem saddle_stitch_signature_spec_witness :
    1 ≤ 8 ∧
    ((get_saddle_stitch_sheets 8).length = ceilDiv 8 4 ∧
    (∀ i, i < ceilDiv 8 4 →
      (get_saddle_stitch_sheets 8)[i]? = some
        ([if ceilDiv 8 4 * 4 - 2 * i - 1 < 8
            then some (ceilDiv 8 4 * 4 - 2 * i - 1) else none,
          if 2 * i < 8 then some (2 * i) else none],
         [if 2 * i + 1 < 8 then some (2 * i + 1) else none,
          if ceilDiv 8 4 * 4 - 2 * i - 2 < 8
            then some (ceilDiv 8 4 * 4 - 2 * i - 2) else none])) ∧
    (∀ s ∈ get_saddle_stitch_sheets 8, ∀ o ∈ s.1 ++ s.2, ∀ p, o = some p → p < 8) ∧
    get_saddle_stitch_sheets 8 = (saddleRawSheets 8).map (fun s =>
      (s.1.map (fun p => if p < 8 then some p else none),
       s.2.map (fun p => if p < 8 then some p else none))) ∧
    (((saddleRawSheets 8).flatMap (fun s => s.1 ++ s.2) : List ℕ) : Multiset ℕ) =
      Multiset.range (ceilDiv 8 4 * 4)) ∧
    get_saddle_stitch_sheets 8 =
      [([some 7, some 0], [some 1, some 6]), ([some 5, some 2], [some 3, some 4])] :=
  ⟨by norm_num, saddle_stitch_signature_spec 8 (by norm_num), by decide⟩

/-! ## C6 — grid centring -/

/-- Left edge of the union of the cells' trim rectangles (0 for an empty
grid; the fold starts from the first cell). -/
def minTrimX : List GridCell → ℚ
  | [] => 0
  | c :: rest => rest.foldl (fun m d => min m d.trim_origin_x) c.trim_origin_x

/-- Right edge of the union of the cells' trim rectangles, for effective
trim width `tw`. -/
def maxTrimX (tw : ℚ) : List GridCell → ℚ
  | [] => 0
  | c :: rest => rest.foldl (fun m d => max m (d.trim_origin_x + tw)) (c.trim_origin_x + tw)

/-- Bottom edge of the union of the cells' trim rectangles. -/
def minTrimY : List GridCell → ℚ
  | [] => 0
  | c :: rest => rest.foldl (fun m d => min m d.trim_origin_y) c.trim_origin_y

/-- Top edge of the union of the cells' trim rectangles, for effective trim
height `th`. -/
def maxTrimY (th : ℚ) : List GridCell → ℚ
  | [] => 0
  | c :: rest => rest.foldl (fun m d => max m (d.trim_origin_y + th)) (c.trim_origin_y + th)

/-- Horizontal centre of the union of the cells' trim rectangles. -/
def boundingCentreX (grid : List GridCell) (tw : ℚ) : ℚ :=
  (minTrimX grid + maxTrimX tw grid) / 2

/-- Vertical centre of the union of the cells' trim rectangles. -/
def boundingCentreY (grid : List GridCell) (th : ℚ) : ℚ :=
  (minTrimY grid + maxTrimY th grid) / 2

/-- Modelled from the claim's words: the horizontal centre of the printable
area, the sheet reduced by `mark_margin` on all four sides. -/
def printableCentreX (s : SheetConfig) : ℚ :=
  (s.mark_margin + ((orientedSheet s).1 - s.mark_margin)) / 2

/-- Modelled from the claim's words: the vertical centre of the printable
area, the sheet reduced by `mark_margin` on all four sides and by
`grip_edge` at the bottom. -/
def printableCentreY (s : SheetConfig) : ℚ :=
  ((s.mark_margin + s.grip_edge) + ((orientedSheet s).2 - s.mark_margin)) / 2

theorem foldl_min_proj_eq {α : Type} (f : α → ℚ) {m : ℚ} (l : List α) (a : ℚ)
    (h1 : m ≤ a) (h2 : ∀ x ∈ l, m ≤ f x) (h3 : m = a ∨ ∃ x ∈ l, f x = m) :
    l.foldl (fun acc d => min acc (f d)) a = m := by
  induction l generalizing a with
  | nil =>
    rcases h3 with h | h
    · exact h.symm
    · obtain ⟨x, hx, _⟩ := h
      cases hx
  | cons d t ih =>
    simp only [List.foldl_cons]
    rcases h3 with h | h
    · subst h
      exact ih (min m (f d)) (le_min (le_refl _) (h2 d (by simp)))
        (fun x hx => h2 x (by simp [hx])) (Or.inl (min_eq_left (h2 d (by simp))).symm)
    · obtain ⟨x, hx, hxm⟩ := h
      rcases List.mem_cons.mp hx with hh | hh
      · subst hh
        exact ih (min a (f x)) (le_min h1 (le_of_eq hxm.symm))
          (fun y hy => h2 y (by simp [hy]))
          (Or.inl ((min_eq_right (by rw [hxm]; exact h1)).trans hxm).symm)
      · exact ih (min a (f d)) (le_min h1 (h2 d (by simp)))
          (fun y hy => h2 y (by simp [hy])) (Or.inr ⟨x, hh, hxm⟩)

theorem foldl_max_proj_eq {α : Type} (f : α → ℚ) {m : ℚ} (l : List α) (a : ℚ)
    (h1 : a ≤ m) (h2 : ∀ x ∈ l, f x ≤ m) (h3 : m = a ∨ ∃ x ∈ l, f x = m) :
    l.foldl (fun acc d => max acc (f d)) a = m := by
  induction l generalizing a with
  | nil =>
    rcases h3 with h | h
    · exact h.symm
    · obtain ⟨x, hx, _⟩ := h
      cases hx
  | cons d t ih =>
    simp only [List.foldl_cons]
    rcases h3 with h | h
    · subst h
      exact ih (max m (f d)) (max_le (le_refl _) (h2 d (by simp)))
        (fun x hx => h2 x (by simp [hx])) (Or.inl (max_eq_left (h2 d (by simp))).symm)
    · obtain ⟨x, hx, hxm⟩ := h
      rcases List.mem_cons.mp hx with hh | hh
      · subst hh
        exact ih (max a (f x)) (max_le h1 (le_of_eq hxm))
          (fun y hy => h2 y (by simp [hy]))
          (Or.inl ((max_eq_right (by rw [hxm]; exact h1)).trans hxm).symm)
      · exact ih (max a (f d)) (max_le h1 (h2 d (by simp)))
          (fun y hy => h2 y (by simp [hy])) (Or.inr ⟨x, hh, hxm⟩)

theorem minTrimX_eq (grid : List GridCell) (m : ℚ) (hne : grid ≠ [])
    (hlb : ∀ c ∈ grid, m ≤ c.trim_origin_x)
    (hmem : ∃ c ∈ grid, c.trim_origin_x = m) : minTrimX grid = m := by
  cases grid with
  | nil => exact absurd rfl hne
  | cons c rest =>
    rw [minTrimX]
    refine foldl_min_proj_eq GridCell.trim_origin_x rest c.trim_origin_x
      (hlb c (by simp)) (fun x hx => hlb x (by simp [hx])) ?_
    rcases hmem with ⟨d, hd, he⟩
    rcases List.mem_cons.mp hd with h | h
    · subst h
      exact Or.inl he.symm
    · exact Or.inr ⟨d, h, he⟩

theorem maxTrimX_eq (grid : List GridCell) (tw m : ℚ) (hne : grid ≠ [])
    (hub : ∀ c ∈ grid, c.trim_origin_x + tw ≤ m)
    (hmem : ∃ c ∈ grid, c.trim_origin_x + tw = m) : maxTrimX tw grid = m := by
  cases grid with
  | nil => exact absurd rfl hne
  | cons c rest =>
    rw [maxTrimX]
    refine foldl_max_proj_eq (fun d => d.trim_origin_x + tw) rest (c.trim_origin_x + tw)
      (hub c (by simp)) (fun x hx => hub x (by simp [hx])) ?_
    rcases hmem with ⟨d, hd, he⟩
    rcases List.mem_cons.mp hd with h | h
    · subst h
      exact Or.inl he.symm
    · exact Or.inr ⟨d, h, he⟩

theorem minTrimY_eq (grid : List GridCell) (m : ℚ) (hne : grid ≠ [])
    (hlb : ∀ c ∈ grid, m ≤ c.trim_origin_y)
    (hmem : ∃ c ∈ grid, c.trim_origin_y = m) : minTrimY grid = m := by
  cases grid with
  | nil => exact absurd rfl hne
  | cons c rest =>
    rw [minTrimY]
    refine foldl_min_proj_eq GridCell.trim_origin_y rest c.trim_origin_y
      (hlb c (by simp)) (fun x hx => hlb x (by simp [hx])) ?_
    rcases hmem with ⟨d, hd, he⟩
    rcases List.mem_cons.mp hd with h | h
    · subst h
      exact Or.inl he.symm
    · exact Or.inr ⟨d, h, he⟩

theorem maxTrimY_eq (grid : List GridCell) (th m : ℚ) (hne : grid ≠ [])
    (hub : ∀ c ∈ grid, c.trim_origin_y + th ≤ m)
    (hmem : ∃ c ∈ grid, c.trim_origin_y + th = m) : maxTrimY th grid = m := by
  cases grid with
  | nil => exact absurd rfl hne
  | cons c rest =>
    rw [maxTrimY]
    refine foldl_max_proj_eq (fun d => d.trim_origin_y + th) rest (c.trim_origin_y + th)
      (hub c (by simp)) (fun x hx => hub x (by simp [hx])) ?_
    rcases hmem with ⟨d, hd, he⟩
    rcases List.mem_cons.mp hd with h | h
    · subst h
      exact Or.inl he.symm
    · exact Or.inr ⟨d, h, he⟩

/-- A 100×100 sheet with `mark_margin = 0` and `grip_edge = 10`, 40×40 trim,
no bleed, no gap: the planner yields a fully occupied 2×2 grid. -/
def cfgC6 : ImpositionConfig :=
  { mode := ImpositionMode.cut_and_stack, trim_width := 40, trim_height := 40,
    bleed := ⟨0, 0, 0, 0⟩, sheet := ⟨100, 100, Orientation.landscape, 10, 0⟩,
    gap_between_items := 0, duplex := false, flip_edge := FlipEdge.long,
    auto_rotate := false }

theorem cfgC6_normalCounts : normalCounts cfgC6 = (2, 2) := by
  norm_num [normalCounts, calcGridCount, orientedSheet, pyInt, shrinkFit, cfgC6,
    landscape_ne_portrait, portrait_ne_landscape]

def gridC6 : List GridCell :=
  [mkCell 0 0 (some 0) 0, mkCell 0 1 (some 1) 0,
   mkCell 1 0 (some 2) 0, mkCell 1 1 (some 3) 0]

theorem cfgC6_layout : calculate_imposition_layout cfgC6 4 =
    { rows := 2, cols := 2, n_up := 4, total_sheets := 1, cell_rotation := 0,
      grid := gridC6 } := by
  have hb : plannerBest cfgC6 = (2, 2, 0) := by
    rw [plannerBest, if_neg]
    · rw [cfgC6_normalCounts]
    · intro hcond
      exact absurd hcond.1 (by simp [cfgC6])
  simp only [calculate_imposition_layout, hb]
  decide

/-- Counterexample to C6: for `cfgC6` with 4 pages (grid non-empty, every
cell occupied) the union of the cell trim rectangles spans `[10, 90]`
vertically, so its centre is `(50, 50)` — the centre of the full sheet — but
the printable-area centre is `(50, 55)` because `grip_edge = 10` shrinks the
printable area at the bottom only.  The vertical difference is 5 mm,
far above the claimed 1e-6 mm tolerance. -/
theorem grid_centering_counterexample :
    boundingCentreY (calculate_cell_positions (calculate_imposition_layout cfgC6 4).grid
      (calculate_imposition_layout cfgC6 4) cfgC6.sheet cfgC6.bleed 0 40 40) 40 = 50 ∧
    printableCentreY cfgC6.sheet = 55 ∧
    ¬((55 : ℚ) - 50 ≤ 1 / 1000000) := by
  refine ⟨?_, ?_, by norm_num⟩
  · rw [cfgC6_layout]
    norm_num [calculate_cell_positions, posCell, offsetX, offsetY, gridExtentW,
      gridExtentH, orientedSheet, cfgC6, gridC6, mkCell, boundingCentreY,
      minTrimY, maxTrimY, landscape_ne_portrait, min_def, max_def]
  · norm_num [printableCentreY, orientedSheet, cfgC6, landscape_ne_portrait]

theorem posCell_tx (l : ImpositionLayout) (sc : SheetConfig) (bc : BleedConfig)
    (gap tw th : ℚ) (c : GridCell) :
    (posCell l sc bc gap tw th c).trim_origin_x =
      offsetX l sc bc gap tw +
        (c.col : ℚ) * (if gap = 0 then tw else tw + bc.left + bc.right + gap) := by
  by_cases h : gap = 0 <;> simp [posCell, h]

theorem posCell_ty (l : ImpositionLayout) (sc : SheetConfig) (bc : BleedConfig)
    (gap tw th : ℚ) (c : GridCell) :
    (posCell l sc bc gap tw th c).trim_origin_y =
      offsetY l sc bc gap th +
        (c.row : ℚ) * (if gap = 0 then th else th + bc.top + bc.bottom + gap) := by
  by_cases h : gap = 0 <;> simp [posCell, h]

/-- In `step_and_repeat` mode the planner's grid is the full row-major
`rows × cols` grid, every cell holding page 0. -/
theorem layout_grid_step (config : ImpositionConfig) (P k : ℕ)
    (hmode : config.mode = ImpositionMode.step_and_repeat) :
    (calculate_imposition_layout config P k).grid =
      (List.range (calculate_imposition_layout config P k).rows.toNat).flatMap
        (fun (r : ℕ) => (List.range (calculate_imposition_layout config P k).cols.toNat).map
          (fun (c : ℕ) => mkCell (r : ℤ) (c : ℤ) (some 0)
            (calculate_imposition_layout config P k).cell_rotation)) := by
  have h : (calculate_imposition_layout config P k).grid =
      buildGrid config.mode (calculate_imposition_layout config P k).rows
        (calculate_imposition_layout config P k).cols P
        (calculate_imposition_layout config P k).cell_rotation
        (min k ((calculate_imposition_layout config P k).total_sheets - 1))
        (calculate_imposition_layout config P k).n_up := rfl
  rw [h, hmode]
  rfl

/-- C6 (amended): for a planner-produced `step_and_repeat` layout (a full,
fully occupied grid) positioned by `calculate_cell_positions`, the centre of
the union of all cell trim rectangles equals the centre of the FULL sheet
shifted by half the bleed asymmetry,
`(sheet_w/2 + (bleed.left − bleed.right)/2, sheet_h/2 + (bleed.bottom − bleed.top)/2)`:
the offsets are derived as `(sheet − grid_extent)/2 + bleed` from the whole
sheet, so `mark_margin` and `grip_edge` never shift the grid and the centre
does not in general coincide with the printable-area centre (see the
counterexample). -/
theorem grid_centering_spec (config : ImpositionConfig) (P : ℕ) (tw th : ℚ)
    (hmode : config.mode = ImpositionMode.step_and_repeat)
    (htw : 0 ≤ tw) (hth : 0 ≤ th)
    (hbl : 0 ≤ config.bleed.left) (hbr : 0 ≤ config.bleed.right)
    (hbt : 0 ≤ config.bleed.top) (hbb : 0 ≤ config.bleed.bottom)
    (hgap : 0 ≤ config.gap_between_items) :
    boundingCentreX (calculate_cell_positions (calculate_imposition_layout config P).grid
        (calculate_imposition_layout config P) config.sheet config.bleed
        config.gap_between_items tw th) tw =
      (orientedSheet config.sheet).1 / 2 +
        (config.bleed.left - config.bleed.right) / 2 ∧
    boundingCentreY (calculate_cell_positions (calculate_imposition_layout config P).grid
        (calculate_imposition_layout config P) config.sheet config.bleed
        config.gap_between_items tw th) th =
      (orientedSheet config.sheet).2 / 2 +
        (config.bleed.bottom - config.bleed.top) / 2 := by
  set L := calculate_imposition_layout config P 0 with hL
  set gap := config.gap_between_items with hgapdef
  have h1r : 1 ≤ L.rows := by rw [hL, layout_rows]; exact clamp1_one_le _
  have h1c : 1 ≤ L.cols := by rw [hL, layout_cols]; exact clamp1_one_le _
  have hrN : 1 ≤ L.rows.toNat := by omega
  have hcN : 1 ≤ L.cols.toNat := by omega
  have hgrid : L.grid = (List.range L.rows.toNat).flatMap
      (fun (r : ℕ) => (List.range L.cols.toNat).map
        (fun (c : ℕ) => mkCell (r : ℤ) (c : ℤ) (some 0) L.cell_rotation)) := by
    rw [hL]
    exact layout_grid_step config P 0 hmode
  have hmem_iff : ∀ cell, cell ∈ L.grid ↔ ∃ r : ℕ, ∃ c : ℕ,
      r < L.rows.toNat ∧ c < L.cols.toNat ∧
      cell = mkCell (r : ℤ) (c : ℤ) (some 0) L.cell_rotation := by
    intro cell
    rw [hgrid]
    constructor
    · intro h
      obtain ⟨r, hr, h2⟩ := List.mem_flatMap.mp h
      obtain ⟨c, hc, rfl⟩ := List.mem_map.mp h2
      exact ⟨r, c, List.mem_range.mp hr, List.mem_range.mp hc, rfl⟩
    · rintro ⟨r, c, hr, hc, rfl⟩
      exact List.mem_flatMap.mpr ⟨r, List.mem_range.mpr hr,
        List.mem_map.mpr ⟨c, List.mem_range.mpr hc, rfl⟩⟩
  set px : ℚ := if gap = 0 then tw else tw + config.bleed.left + config.bleed.right + gap
    with hpx
  set py : ℚ := if gap = 0 then th else th + config.bleed.top + config.bleed.bottom + gap
    with hpy
  have hpx0 : 0 ≤ px := by
    rw [hpx]
    split
    · exact htw
    · linarith
  have hpy0 : 0 ≤ py := by
    rw [hpy]
    split
    · exact hth
    · linarith
  have hcolscast : ((L.cols.toNat : ℚ)) = ((L.cols : ℤ) : ℚ) := by
    have h := Int.toNat_of_nonneg (show (0 : ℤ) ≤ L.cols by omega)
    exact_mod_cast congrArg (fun z : ℤ => (z : ℚ)) h
  have hrowscast : ((L.rows.toNat : ℚ)) = ((L.rows : ℤ) : ℚ) := by
    have h := Int.toNat_of_nonneg (show (0 : ℤ) ≤ L.rows by omega)
    exact_mod_cast congrArg (fun z : ℤ => (z : ℚ)) h
  have hcell00 : mkCell 0 0 (some 0) L.cell_rotation ∈ L.grid :=
    (hmem_iff _).mpr ⟨0, 0, by omega, by omega, by norm_num⟩
  have hminX : minTrimX (calculate_cell_positions L.grid L config.sheet config.bleed gap tw th) =
      offsetX L config.sheet config.bleed gap tw := by
    apply minTrimX_eq
    · exact List.ne_nil_of_mem (List.mem_map.mpr ⟨_, hcell00, rfl⟩)
    · intro c' hc'
      obtain ⟨cell, hcell, rfl⟩ := List.mem_map.mp hc'
      rw [posCell_tx, ← hpx]
      obtain ⟨r, c, hr, hc, rfl⟩ := (hmem_iff _).mp hcell
      have hcol : (0 : ℚ) ≤ ((mkCell (r : ℤ) (c : ℤ) (some 0) L.cell_rotation).col : ℚ) := by
        simp [mkCell]
      nlinarith [mul_nonneg hcol hpx0]
    · refine ⟨posCell L config.sheet config.bleed gap tw th
        (mkCell 0 0 (some 0) L.cell_rotation),
        List.mem_map.mpr ⟨_, hcell00, rfl⟩, ?_⟩
      rw [posCell_tx, ← hpx]
      simp [mkCell]
  have hmaxX : maxTrimX tw (calculate_cell_positions L.grid L config.sheet config.bleed gap tw th) =
      offsetX L config.sheet config.bleed gap tw + (((L.cols : ℤ) : ℚ) - 1) * px + tw := by
    apply maxTrimX_eq
    · exact List.ne_nil_of_mem (List.mem_map.mpr ⟨_, hcell00, rfl⟩)
    · intro c' hc'
      obtain ⟨cell, hcell, rfl⟩ := List.mem_map.mp hc'
      rw [posCell_tx, ← hpx]
      obtain ⟨r, c, hr, hc, rfl⟩ := (hmem_iff _).mp hcell
      have hcle : ((mkCell (r : ℤ) (c : ℤ) (some 0) L.cell_rotation).col : ℚ) ≤
          ((L.cols : ℤ) : ℚ) - 1 := by
        simp only [mkCell]
        rw [← hcolscast]
        have h1 : (c : ℚ) + 1 ≤ (L.cols.toNat : ℚ) := by
          exact_mod_cast Nat.cast_le.mpr (show c + 1 ≤ L.cols.toNat from hc)
        push_cast
        linarith
      nlinarith [mul_le_mul_of_nonneg_right hcle hpx0]
    · refine ⟨posCell L config.sheet config.bleed gap tw th
        (mkCell 0 ((L.cols.toNat - 1 : ℕ) : ℤ) (some 0) L.cell_rotation),
        List.mem_map.mpr ⟨_, (hmem_iff _).mpr ⟨0, L.cols.toNat - 1, by omega, by omega,
          by norm_num⟩, rfl⟩, ?_⟩
      rw [posCell_tx, ← hpx]
      simp only [mkCell]
      have hc1 : (((L.cols.toNat - 1 : ℕ) : ℤ) : ℚ) = ((L.cols : ℤ) : ℚ) - 1 := by
        rw [show ((L.cols.toNat - 1 : ℕ) : ℤ) = L.cols - 1 from by omega]
        push_cast
        ring
      rw [hc1]
  have hminY : minTrimY (calculate_cell_positions L.grid L config.sheet config.bleed gap tw th) =
      offsetY L config.sheet config.bleed gap th := by
    apply minTrimY_eq
    · exact List.ne_nil_of_mem (List.mem_map.mpr ⟨_, hcell00, rfl⟩)
    · intro c' hc'
      obtain ⟨cell, hcell, rfl⟩ := List.mem_map.mp hc'
      rw [posCell_ty, ← hpy]
      obtain ⟨r, c, hr, hc, rfl⟩ := (hmem_iff _).mp hcell
      have hrow : (0 : ℚ) ≤ ((mkCell (r : ℤ) (c : ℤ) (some 0) L.cell_rotation).row : ℚ) := by
        simp [mkCell]
      nlinarith [mul_nonneg hrow hpy0]
    · refine ⟨posCell L config.sheet config.bleed gap tw th
        (mkCell 0 0 (some 0) L.cell_rotation),
        List.mem_map.mpr ⟨_, hcell00, rfl⟩, ?_⟩
      rw [posCell_ty, ← hpy]
      simp [mkCell]
  have hmaxY : maxTrimY th (calculate_cell_positions L.grid L config.sheet config.bleed gap tw th) =
      offsetY L config.sheet config.bleed gap th + (((L.rows : ℤ) : ℚ) - 1) * py + th := by
    apply maxTrimY_eq
    · exact List.ne_nil_of_mem (List.mem_map.mpr ⟨_, hcell00, rfl⟩)
    · intro c' hc'
      obtain ⟨cell, hcell, rfl⟩ := List.mem_map.mp hc'
      rw [posCell_ty, ← hpy]
      obtain ⟨r, c, hr, hc, rfl⟩ := (hmem_iff _).mp hcell
      have hrle : ((mkCell (r : ℤ) (c : ℤ) (some 0) L.cell_rotation).row : ℚ) ≤
          ((L.rows : ℤ) : ℚ) - 1 := by
        simp only [mkCell]
        rw [← hrowscast]
        have h1 : (r : ℚ) + 1 ≤ (L.rows.toNat : ℚ) := by
          exact_mod_cast Nat.cast_le.mpr (show r + 1 ≤ L.rows.toNat from hr)
        push_cast
        linarith
      nlinarith [mul_le_mul_of_nonneg_right hrle hpy0]
    · refine ⟨posCell L config.sheet config.bleed gap tw th
        (mkCell ((L.rows.toNat - 1 : ℕ) : ℤ) 0 (some 0) L.cell_rotation),
        List.mem_map.mpr ⟨_, (hmem_iff _).mpr ⟨L.rows.toNat - 1, 0, by omega, by omega,
          by norm_num⟩, rfl⟩, ?_⟩
      rw [posCell_ty, ← hpy]
      simp only [mkCell]
      have hr1 : (((L.rows.toNat - 1 : ℕ) : ℤ) : ℚ) = ((L.rows : ℤ) : ℚ) - 1 := by
        rw [show ((L.rows.toNat - 1 : ℕ) : ℤ) = L.rows - 1 from by omega]
        push_cast
        ring
      rw [hr1]
  constructor
  · rw [boundingCentreX, hminX, hmaxX, offsetX, gridExtentW]
    rw [hpx]
    by_cases hg : gap = 0
    · rw [if_pos hg, if_pos hg]
      ring
    · rw [if_neg hg, if_neg hg]
      ring
  · rw [boundingCentreY, hminY, hmaxY, offsetY, gridExtentH]
    rw [hpy]
    by_cases hg : gap = 0
    · rw [if_pos hg, if_pos hg]
      ring
    · rw [if_neg hg, if_neg hg]
      ring

def cfgW6 : ImpositionConfig := { cfgC6 with mode := ImpositionMode.step_and_repeat }

/-- Witness for C6 (amended) on the concrete 2×2 step-and-repeat layout. -/
theorem grid_centering_spec_witness :
    (cfgW6.mode = ImpositionMode.step_and_repeat ∧
      (0 : ℚ) ≤ 40 ∧ 0 ≤ cfgW6.bleed.left ∧ 0 ≤ cfgW6.bleed.right ∧
      0 ≤ cfgW6.bleed.top ∧ 0 ≤ cfgW6.bleed.bottom ∧
      0 ≤ cfgW6.gap_between_items) ∧
    (boundingCentreX (calculate_cell_positions (calculate_imposition_layout cfgW6 4).grid
        (calculate_imposition_layout cfgW6 4) cfgW6.sheet cfgW6.bleed
        cfgW6.gap_between_items 40 40) 40 =
      (orientedSheet cfgW6.sheet).1 / 2 + (cfgW6.bleed.left - cfgW6.bleed.right) / 2 ∧
    boundingCentreY (calculate_cell_positions (calculate_imposition_layout cfgW6 4).grid
        (calculate_imposition_layout cfgW6 4) cfgW6.sheet cfgW6.bleed
        cfgW6.gap_between_items 40 40) 40 =
      (orientedSheet cfgW6.sheet).2 / 2 + (cfgW6.bleed.bottom - cfgW6.bleed.top) / 2) :=
  ⟨⟨rfl, by norm_num, by norm_num [cfgW6, cfgC6], by norm_num [cfgW6, cfgC6],
    by norm_num [cfgW6, cfgC6], by norm_num [cfgW6, cfgC6], by norm_num [cfgW6, cfgC6]⟩,
    grid_centering_spec cfgW6 4 40 40 rfl (by norm_num) (by norm_num)
      (by norm_num [cfgW6, cfgC6]) (by norm_num [cfgW6, cfgC6])
      (by norm_num [cfgW6, cfgC6]) (by norm_num [cfgW6, cfgC6])
      (by norm_num [cfgW6, cfgC6])⟩

end Imposer
